import Mathlib

/-! TrafficBot: a shallow embedding of `src/traffic-bot.js`.

The class `TrafficBot` is modelled by explicit state passing.  Every method
takes the bot state (the object's fields, together with two ghost fields: the
interval timers armed in the event loop and the chronological trace of the
effects performed) and returns a completion (normal or thrown) with the
state after the call.  Whatever the outside world decides (the provider's
answer, the random draws, the outcome of tunnel and HTTP operations) is
supplied as an argument.

JavaScript numbers that hold counters and settings are integers here.  A
double is the rational it denotes, and the arithmetic of the source on doubles
(`Math.random() * length`, the success rate) rounds every result to the
nearest double, the one with the even significand on a tie.
-/

namespace TrafficBot

/-! ## Data model -/

/-- The settings stored in `this.config` by the constructor. -/
structure Config where
  targetUrl : String
  concurrency : Int
  interval : Int
  countries : List String
  useProxy : Bool
  proxyRefreshInterval : Int
  maxRetries : Int
  timeout : Int
  deriving DecidableEq, Repr

/-- The object handed to the constructor: every property may be absent
(`undefined`), which is `none`. -/
structure ConfigInput where
  targetUrl : Option String
  concurrency : Option Int
  interval : Option Int
  countries : Option (List String)
  useProxy : Option Bool
  proxyRefreshInterval : Option Int
  maxRetries : Option Int
  timeout : Option Int
  deriving DecidableEq, Repr

/-- The two callbacks the bot passes to `setInterval`. -/
inductive Trigger where
  | refresh
  | visit
  deriving DecidableEq, Repr

/-- One armed `setInterval`: the callback and its period in milliseconds. -/
structure Timer where
  callback : Trigger
  period : Int
  deriving DecidableEq, Repr

/-- The effects a method performs, in the order of the source: calls into
the logger, the provider, the tunnel library and the HTTP client.
`visitStarted k` marks the entry into the body of `generateVisit(k)`. -/
inductive Event where
  | providerFetch
  | logRefreshed (proxyCount : Nat)
  | logFetchFailed (error : String)
  | logInitialized
  | logInitFailed (error : String)
  | logStarting
  | logStartFailed (error : String)
  | visitStarted (retryCount : Nat)
  | tunnelClosed (url : String)
  | tunnelOpened (upstream : String)
  | httpRequest (proxyUrl : String)
  | logVisitSuccess (visitCount : Nat) (status : Nat)
  | logVisitFailed (error : String) (retryCount : Nat)
  | logRetry (retryCount : Nat)
  | logCleanup
  deriving DecidableEq, Repr

/-- How a call ends: it returns a value or it throws an `Error` with a message. -/
inductive Completion (α : Type) where
  | normal (value : α)
  | throw (message : String)
  deriving DecidableEq, Repr

end TrafficBot

/-- The fields of a `TrafficBot` object, with the armed timers and the trace
of effects as ghost state. -/
structure TrafficBot where
  config : TrafficBot.Config
  proxyList : List String
  proxyServer : Option String
  visitCount : Nat
  failedVisits : Nat
  timers : List TrafficBot.Timer
  trace : List TrafficBot.Event
  deriving DecidableEq, Repr

namespace TrafficBot

/-! ## JavaScript helpers -/

/-- Truthiness of a string, a number, a boolean and an array. -/
class Truthy (α : Type) where
  truthy : α → Bool

instance : Truthy String := ⟨fun s => !s.data.isEmpty⟩
instance : Truthy Int := ⟨fun n => n != 0⟩
instance : Truthy Bool := ⟨fun b => b⟩
instance : Truthy (List String) := ⟨fun _ => true⟩

/-- The expression `v || d` for a possibly absent property `v`: the left
operand when it is truthy, the right one otherwise. -/
def jsOr {α : Type} [Truthy α] (v : Option α) (d : α) : α :=
  match v with
  | some x => if Truthy.truthy x then x else d
  | none => d

/-- The object `{}`, the default value of the constructor's parameter. -/
def emptyInput : ConfigInput :=
  { targetUrl := none, concurrency := none, interval := none, countries := none,
    useProxy := none, proxyRefreshInterval := none, maxRetries := none, timeout := none }

/-- The constructor, `new TrafficBot(config)`. -/
def constructor (config : ConfigInput) : TrafficBot :=
  { config :=
      { targetUrl := jsOr config.targetUrl ""
        concurrency := jsOr config.concurrency 5
        interval := jsOr config.interval 1000
        countries := jsOr config.countries ["US", "UK", "CA"]
        useProxy := jsOr config.useProxy true
        proxyRefreshInterval := jsOr config.proxyRefreshInterval 3600000
        maxRetries := jsOr config.maxRetries 3
        timeout := jsOr config.timeout 30000 }
    proxyList := []
    proxyServer := none
    visitCount := 0
    failedVisits := 0
    timers := []
    trace := [] }

/-- Record one effect at the end of the trace. -/
def emit (b : TrafficBot) (e : Event) : TrafficBot :=
  { b with trace := b.trace ++ [e] }

/-- The call `setInterval(callback, period)`: one more armed timer. -/
def setInterval (b : TrafficBot) (callback : Trigger) (period : Int) : TrafficBot :=
  { b with timers := b.timers ++ [{ callback := callback, period := period }] }

/-! ## Strings: `split('\n')` and `trim()` -/

/-- The code points `String.prototype.trim` removes: ECMAScript `WhiteSpace`
and `LineTerminator`. -/
def isWhiteSpace (c : Char) : Bool :=
  let n := c.toNat
  n == 0x09 || n == 0x0A || n == 0x0B || n == 0x0C || n == 0x0D || n == 0x20 ||
  n == 0xA0 || n == 0x1680 || (0x2000 ≤ n && n ≤ 0x200A) || n == 0x2028 ||
  n == 0x2029 || n == 0x202F || n == 0x205F || n == 0x3000 || n == 0xFEFF

/-- The characters of `s.trim()`. -/
def trimChars (l : List Char) : List Char :=
  ((l.dropWhile isWhiteSpace).reverse.dropWhile isWhiteSpace).reverse

/-- The method `s.trim()`. -/
def trim (s : String) : String := ⟨trimChars s.data⟩

/-- The pieces of `s.split('\n')`, as lists of characters: there is always
at least one piece, and `n` separators give `n + 1` pieces. -/
def splitChars : List Char → List (List Char)
  | [] => [[]]
  | c :: cs =>
    if c = '\n' then [] :: splitChars cs
    else
      match splitChars cs with
      | [] => [[c]]
      | piece :: rest => (c :: piece) :: rest

/-- The method `s.split('\n')`. -/
def splitNewline (s : String) : List String :=
  (splitChars s.data).map String.mk

/-- The expression of lines 61-63:
`body.split('\n').filter(proxy => proxy.trim()).map(proxy => proxy.trim())`. -/
def parseProxies (body : String) : List String :=
  ((splitNewline body).filter (fun proxy => Truthy.truthy (trim proxy))).map
    (fun proxy => trim proxy)

/-- The pieces joined again with a newline between neighbours, as
`pieces.join('\n')` does. -/
def joinChars : List (List Char) → List Char
  | [] => []
  | [piece] => piece
  | piece :: next :: rest => piece ++ '\n' :: joinChars (next :: rest)

/-- The wording of the specification for the parsed listing: split the body on
newlines, discard every line that is empty or consists of white space only,
and trim each remaining line, keeping the order. -/
def parseProxiesSpec (body : String) : List String :=
  ((splitNewline body).filter (fun line => !(line.data.all isWhiteSpace))).map trim

/-! ## The proxy pool -/

/-- What the provider request of `refreshProxies` yields: `fetch` rejects,
`response.text()` rejects, or the body arrives. -/
inductive ProviderReply where
  | fetchError (message : String)
  | textError (message : String)
  | body (text : String)
  deriving DecidableEq, Repr

/-- The method `refreshProxies()`. -/
def refreshProxies (reply : ProviderReply) (b : TrafficBot) : Completion Unit × TrafficBot :=
  let b := b.emit .providerFetch
  let attempt : Except String String :=
    match reply with
    | .fetchError m => .error m
    | .textError m => .error m
    | .body text => .ok text
  match attempt with
  | .ok proxyList =>
    let b := { b with proxyList := parseProxies proxyList }
    (.normal (), b.emit (.logRefreshed b.proxyList.length))
  | .error message =>
    let b := b.emit (.logFetchFailed message)
    if b.proxyList.length = 0 then (.throw "No proxies available", b)
    else (.normal (), b)

/-- The spacing of the doubles around a positive rational `x`: `2 ^ (e - 52)`,
where `e` is the binary exponent of `x`, not below the least exponent -1022
(under it the doubles are subnormal and evenly spaced). -/
def ulp (x : ℚ) : ℚ := (2 : ℚ) ^ (max (Int.log 2 x) (-1022) - 52)

/-- The integer nearest to `t`, the even one on a tie. -/
def roundTiesEven (t : ℚ) : Int :=
  if t - ⌊t⌋ < 1 / 2 then ⌊t⌋
  else if 1 / 2 < t - ⌊t⌋ then ⌊t⌋ + 1
  else if ⌊t⌋ % 2 = 0 then ⌊t⌋ else ⌊t⌋ + 1

/-- The double nearest to a rational, ties to the even significand, as every
arithmetic operation of the language rounds its exact result; the exponent is
not bounded above here (see `JSNumber.ofRat` for the overflow). -/
def roundDouble (x : ℚ) : ℚ :=
  if x = 0 then 0
  else if 0 < x then roundTiesEven (x / ulp x) * ulp x
  else -(roundTiesEven (-x / ulp (-x)) * ulp (-x))

/-- A rational that rounding leaves as it is: a double, when its magnitude is
below `2 ^ 1024`. -/
def isDouble (x : ℚ) : Prop := roundDouble x = x

instance (x : ℚ) : Decidable (isDouble x) := by
  unfold isDouble
  infer_instance

/-- The expression `Math.floor(x)`. -/
def mathFloor (x : ℚ) : Int := ⌊x⌋

/-- The expression `array[i]` for an integer `i`: `undefined` (here `none`)
outside the bounds. -/
def index {α : Type} (array : List α) (i : Int) : Option α :=
  if i < 0 then none else array[i.toNat]?

/-- The method `getRandomProxy()`, where `random` is the value `Math.random()`
returns.  The product `Math.random() * this.proxyList.length` is the double
product (an array length is below `2 ^ 32`, hence a double).  The result is an
entry of the list or `undefined`. -/
def getRandomProxy (random : ℚ) (b : TrafficBot) : Completion (Option String) × TrafficBot :=
  if b.proxyList.length = 0 then (.throw "No proxies available", b)
  else
    (.normal (index b.proxyList (mathFloor (roundDouble (random * b.proxyList.length)))), b)

/-! ## The visit executor -/

/-- The response of the target: `ok` is true for the statuses 200 to 299. -/
structure Response where
  status : Nat
  deriving DecidableEq, Repr

/-- The property `response.ok`. -/
def Response.ok (r : Response) : Bool := 200 ≤ r.status && r.status ≤ 299

/-- What the outside world decides during one execution of the body of
`generateVisit`: the value of `Math.random()`, whether closing the previous
tunnel rejects, what `anonymizeProxy` yields, and what `fetch` yields. -/
structure Attempt where
  random : ℚ
  closeError : Option String
  anonymized : Except String String
  response : Except String Response

/-- Truthiness of a field that holds `null` or a string. -/
def truthyField (v : Option String) : Bool :=
  match v with
  | some s => Truthy.truthy s
  | none => false

/-- The template literal of line 81 applied to the picked proxy. -/
def upstreamUrl (proxy : Option String) : String :=
  "http://" ++ (match proxy with
    | some p => p
    | none => "undefined")

/-- Lines 78-80 of `createProxyServer`: close the tunnel held in
`this.proxyServer`, if there is one. -/
def closePrevious (a : Attempt) (b : TrafficBot) : Completion Unit × TrafficBot :=
  if truthyField b.proxyServer then
    match a.closeError with
    | some m => (.throw m, b.emit (.tunnelClosed (b.proxyServer.getD "")))
    | none => (.normal (), b.emit (.tunnelClosed (b.proxyServer.getD "")))
  else (.normal (), b)

/-- The method `createProxyServer(proxy)`. -/
def createProxyServer (a : Attempt) (proxy : Option String) (b : TrafficBot) :
    Completion String × TrafficBot :=
  match closePrevious a b with
  | (.throw m, b) => (.throw m, b)
  | (.normal _, b) =>
    match a.anonymized with
    | .error m => (.throw m, b.emit (.tunnelOpened (upstreamUrl proxy)))
    | .ok url =>
      (.normal url, { b.emit (.tunnelOpened (upstreamUrl proxy)) with proxyServer := some url })

/-- The `try` block of `generateVisit` (lines 96-127).  The request headers do
not influence the control flow and are left out. -/
def tryVisit (a : Attempt) (b : TrafficBot) : Completion Unit × TrafficBot :=
  match getRandomProxy a.random b with
  | (.throw m, b) => (.throw m, b)
  | (.normal proxy, b) =>
    match createProxyServer a proxy b with
    | (.throw m, b) => (.throw m, b)
    | (.normal proxyUrl, b) =>
      let b := b.emit (.httpRequest proxyUrl)
      match a.response with
      | .error m => (.throw m, b)
      | .ok response =>
        if !response.ok then
          (.throw ("HTTP error! status: " ++ toString response.status), b)
        else
          let b := { b with visitCount := b.visitCount + 1 }
          (.normal (), b.emit (.logVisitSuccess b.visitCount response.status))

/-- Lines 129-134 of the `catch` block of `generateVisit`: count the failure
and log it. -/
def recordFailure (b : TrafficBot) (message : String) (retryCount : Nat) : TrafficBot :=
  { b with failedVisits := b.failedVisits + 1 }.emit (.logVisitFailed message retryCount)

/-- The method `generateVisit(retryCount)`.  `env k` is what the outside world
decides during the execution with `retryCount = k`. -/
def generateVisit (env : Nat → Attempt) (retryCount : Nat) (b : TrafficBot) : TrafficBot :=
  match h : tryVisit (env retryCount) (b.emit (.visitStarted retryCount)) with
  | (.normal _, b1) => b1
  | (.throw message, b1) =>
    if (retryCount : Int) < (recordFailure b1 message retryCount).config.maxRetries then
      generateVisit env (retryCount + 1)
        ((recordFailure b1 message retryCount).emit (.logRetry (retryCount + 1)))
    else recordFailure b1 message retryCount
termination_by (b.config.maxRetries - retryCount).toNat
decreasing_by
  have key : ∀ (a : Attempt) (b0 : TrafficBot), (tryVisit a b0).2.config = b0.config := by
    intro a b0
    obtain ⟨r, ce, an, resp⟩ := a
    by_cases h1 : b0.proxyList.length = 0 <;>
      by_cases h2 : truthyField b0.proxyServer = true <;>
      cases ce <;> cases an <;> rcases resp with m | resp <;>
      try by_cases h3 : resp.ok = true
    all_goals simp [tryVisit, getRandomProxy, createProxyServer, closePrevious, emit, *]
  have hc : (tryVisit (env retryCount) (b.emit (.visitStarted retryCount))).2.config
      = b.config := key _ _
  rw [h] at hc
  rename_i hlt
  have hlt2 : (retryCount : Int) < b1.config.maxRetries := hlt
  have hgoal : ((recordFailure b1 message retryCount).emit (.logRetry (retryCount + 1))).config
      = b1.config := rfl
  rw [hgoal]
  rw [hc] at hlt2 ⊢
  omega

/-- An event that marks the start of one execution of the body of
`generateVisit`. -/
def isAttempt : Event → Bool
  | .visitStarted _ => true
  | _ => false

/-- An event that opens a tunnel or issues the HTTP request. -/
def isNetwork : Event → Bool
  | .tunnelOpened _ => true
  | .httpRequest _ => true
  | _ => false

/-- The number of executions of the body of `generateVisit` recorded so far. -/
def attempts (b : TrafficBot) : Nat := b.trace.countP isAttempt

/-- An event that is the provider request of `refreshProxies`. -/
def isProviderFetch : Event → Bool
  | .providerFetch => true
  | _ => false

/-- The number of calls of `refreshProxies` recorded so far. -/
def refreshCalls (b : TrafficBot) : Nat := b.trace.countP isProviderFetch

/-- The number of tunnels opened and HTTP requests issued so far. -/
def networkCalls (b : TrafficBot) : Nat := b.trace.countP isNetwork

/-- The retry counts of the executions of the body of `generateVisit`
recorded so far, in order. -/
def attemptIndices (b : TrafficBot) : List Nat :=
  b.trace.filterMap (fun e =>
    match e with
    | .visitStarted k => some k
    | _ => none)

/-- The state in which the execution with `retryCount = k` begins in the
retry chain that `generateVisit(0)` starts in `b`, when the executions before
it have thrown. -/
def stateBefore (env : Nat → Attempt) (b : TrafficBot) : Nat → TrafficBot
  | 0 => b
  | k + 1 =>
    match tryVisit (env k) ((stateBefore env b k).emit (.visitStarted k)) with
    | (.throw m, b1) => (recordFailure b1 m k).emit (.logRetry (k + 1))
    | (.normal _, b1) => b1

/-- Whether the execution with `retryCount = k` of that chain completes its
`try` block, which is a successful visit. -/
def succeeds (env : Nat → Attempt) (b : TrafficBot) (k : Nat) : Bool :=
  match (tryVisit (env k) ((stateBefore env b k).emit (.visitStarted k))).1 with
  | .normal _ => true
  | .throw _ => false

/-! ## The scheduler -/

/-- The method `init()`. -/
def init (reply : ProviderReply) (b : TrafficBot) : Completion Unit × TrafficBot :=
  if b.config.useProxy then
    match refreshProxies reply b with
    | (.throw m, b) => (.throw m, b.emit (.logInitFailed m))
    | (.normal _, b) =>
      (.normal (), (b.setInterval .refresh b.config.proxyRefreshInterval).emit .logInitialized)
  else (.normal (), b.emit .logInitialized)

/-- The loop of lines 177-179, from the value `i` of its counter on. -/
def startLoop (i : Nat) (b : TrafficBot) : TrafficBot :=
  if (i : Int) < b.config.concurrency then
    startLoop (i + 1) (b.setInterval .visit b.config.interval)
  else b
termination_by (b.config.concurrency - i).toNat
decreasing_by
  have hgoal : (b.setInterval .visit b.config.interval).config = b.config := rfl
  rw [hgoal]
  omega

/-- The method `start()`. -/
def start (reply : ProviderReply) (b : TrafficBot) : Completion Unit × TrafficBot :=
  match init reply b with
  | (.throw m, b) => (.throw m, b.emit (.logStartFailed m))
  | (.normal _, b) => (.normal (), startLoop 0 (b.emit .logStarting))

/-- The method `cleanup()`; `closeError` tells whether closing the tunnel
rejects. -/
def cleanup (closeError : Option String) (b : TrafficBot) : Completion Unit × TrafficBot :=
  if truthyField b.proxyServer then
    match closeError with
    | some m => (.throw m, b.emit (.tunnelClosed (b.proxyServer.getD "")))
    | none => (.normal (), (b.emit (.tunnelClosed (b.proxyServer.getD ""))).emit .logCleanup)
  else (.normal (), b.emit .logCleanup)

/-- One firing of an interval timer: an armed timer runs its callback, the
arrow functions of lines 48 and 178.  A timer that is not armed does nothing. -/
def fire (t : Timer) (env : Nat → Attempt) (reply : ProviderReply) (b : TrafficBot) :
    Option TrafficBot :=
  if t ∈ b.timers then
    match t.callback with
    | .visit => some (generateVisit env 0 b)
    | .refresh => some (refreshProxies reply b).2
  else none

/-! ## Statistics -/

/-- The values of a JavaScript number that the success rate can take: a
finite double (the rational it denotes), `NaN`, `Infinity` or `-Infinity`. -/
inductive JSNumber where
  | finite (q : ℚ)
  | nan
  | posInfinity
  | negInfinity
  deriving DecidableEq

namespace JSNumber

/-- The number an exact result becomes: the nearest double, or an infinity
when that rounding reaches `2 ^ 1024`. -/
def ofRat (x : ℚ) : JSNumber :=
  if (2 : ℚ) ^ 1024 ≤ roundDouble x then posInfinity
  else if roundDouble x ≤ -(2 : ℚ) ^ 1024 then negInfinity
  else finite (roundDouble x)

/-- The operator `-` on numbers. -/
def sub : JSNumber → JSNumber → JSNumber
  | finite a, finite b => ofRat (a - b)
  | nan, _ => nan
  | _, nan => nan
  | posInfinity, posInfinity => nan
  | negInfinity, negInfinity => nan
  | posInfinity, _ => posInfinity
  | negInfinity, _ => negInfinity
  | finite _, posInfinity => negInfinity
  | finite _, negInfinity => posInfinity

/-- The operator `/` on numbers, for a divisor that is not a negative zero. -/
def div : JSNumber → JSNumber → JSNumber
  | finite a, finite b =>
    if b = 0 then
      if a = 0 then nan else if 0 < a then posInfinity else negInfinity
    else ofRat (a / b)
  | nan, _ => nan
  | _, nan => nan
  | finite _, _ => finite 0
  | posInfinity, finite b => if 0 ≤ b then posInfinity else negInfinity
  | negInfinity, finite b => if 0 ≤ b then negInfinity else posInfinity
  | _, _ => nan

/-- The operator `*` on numbers. -/
def mul : JSNumber → JSNumber → JSNumber
  | finite a, finite b => ofRat (a * b)
  | nan, _ => nan
  | _, nan => nan
  | finite a, posInfinity => if a = 0 then nan else if 0 < a then posInfinity else negInfinity
  | finite a, negInfinity => if a = 0 then nan else if 0 < a then negInfinity else posInfinity
  | posInfinity, finite b => if b = 0 then nan else if 0 < b then posInfinity else negInfinity
  | negInfinity, finite b => if b = 0 then nan else if 0 < b then negInfinity else posInfinity
  | posInfinity, posInfinity => posInfinity
  | negInfinity, negInfinity => posInfinity
  | posInfinity, negInfinity => negInfinity
  | negInfinity, posInfinity => negInfinity

/-- The method `toFixed(2)`.  A value that is not finite prints as its name.
A finite one prints its sign, then, for a magnitude from `10 ^ 21` on, what
the number-to-string conversion of the language gives (`numberToString`, the
exponent form, not modelled here), and otherwise the integer `n` for which
`n / 100` is closest to the magnitude (the larger one on a tie) with two
fractional digits. -/
def toFixed2 (numberToString : ℚ → String) : JSNumber → String
  | nan => "NaN"
  | posInfinity => "Infinity"
  | negInfinity => "-Infinity"
  | finite q =>
    let n : Nat := ⌊|q| * 100 + 1 / 2⌋.toNat
    (if q < 0 then "-" else "") ++
      (if (10 : ℚ) ^ 21 ≤ |q| then numberToString |q|
       else toString (n / 100) ++ "." ++
        (if n % 100 < 10 then "0" else "") ++ toString (n % 100))

end JSNumber

/-- The object `getStats()` returns. -/
structure Stats where
  totalVisits : Nat
  failedVisits : Nat
  successRate : String
  activeProxies : Nat
  deriving DecidableEq, Repr

/-- The method `getStats()`.  The counters are integers that a double holds
exactly (`++` cannot take a counter beyond `2 ^ 53`); `numberToString` is the
conversion `toFixed` falls back on for magnitudes from `10 ^ 21` on. -/
def getStats (numberToString : ℚ → String) (b : TrafficBot) : Stats :=
  { totalVisits := b.visitCount
    failedVisits := b.failedVisits
    successRate :=
      (((JSNumber.finite b.visitCount).sub (.finite b.failedVisits)).div
        (.finite b.visitCount) |>.mul (.finite 100)).toFixed2 numberToString ++ "%"
    activeProxies := b.proxyList.length }

/-! ## Wording of the contracts -/

/-- The wording of the constructor's contract: the stored setting is the
supplied value when that value is truthy, and the built-in default otherwise
(the property is absent, or its value is falsy). -/
def StoredOrDefault {α : Type} (isTruthy : α → Prop) (supplied : Option α)
    (builtin stored : α) : Prop :=
  (∀ v, supplied = some v → isTruthy v → stored = v) ∧
    ((∀ v, supplied = some v → ¬ isTruthy v) → stored = builtin)

/-! ## Concrete scenarios -/

/-- A freshly constructed bot, `new TrafficBot({})`. -/
def fresh : TrafficBot := constructor emptyInput

/-- Scenario A of the specification: proxies `[p1, p2, p3]` and `maxRetries` 2. -/
def scenarioA : TrafficBot :=
  { constructor { emptyInput with maxRetries := some 2 } with proxyList := ["p1", "p2", "p3"] }

/-- A bot that holds seven proxies. -/
def sevenProxies : TrafficBot :=
  { fresh with proxyList := ["a0", "a1", "a2", "a3", "a4", "a5", "a6"] }

/-- A double in `[0, 1)` whose exact product with 7 lies just under 4 and
whose double product with 7 is 4: `2573485501354569 / 2 ^ 52`. -/
def drawNearFourSevenths : ℚ := 2573485501354569 / 4503599627370496

/-- A configuration object that supplies `maxRetries: -1` only. -/
def negativeRetries : ConfigInput := { emptyInput with maxRetries := some (-1) }

/-- A world in which the tunnel always opens and the target always answers
with the given status. -/
def alwaysStatus (status : Nat) : Nat → Attempt := fun _ =>
  { random := 0
    closeError := none
    anonymized := .ok "http://127.0.0.1:10000"
    response := .ok { status := status } }

/-- A world in which the tunnel always opens and the target answers 500 to
the first two requests and 200 from then on. -/
def failTwiceThenOk : Nat → Attempt := fun k =>
  { random := 1 / 2
    closeError := none
    anonymized := .ok "http://127.0.0.1:10000"
    response := .ok { status := if k < 2 then 500 else 200 } }

theorem emit_config (b : TrafficBot) (e : Event) : (b.emit e).config = b.config := rfl

theorem tryVisit_config (a : Attempt) (b : TrafficBot) :
    (tryVisit a b).2.config = b.config := by
  obtain ⟨r, ce, an, resp⟩ := a
  by_cases h1 : b.proxyList.length = 0 <;> by_cases h2 : truthyField b.proxyServer = true <;>
    cases ce <;> cases an <;> rcases resp with m | resp <;>
    try by_cases h3 : resp.ok = true
  all_goals simp [tryVisit, getRandomProxy, createProxyServer, closePrevious, emit, *]

theorem generateVisit_normal (env : Nat → Attempt) (rc : Nat) (b b1 : TrafficBot) (u : Unit)
    (h : tryVisit (env rc) (b.emit (.visitStarted rc)) = (.normal u, b1)) :
    generateVisit env rc b = b1 := by
  rw [generateVisit]
  split
  · rename_i u2 b2 h2
    rw [h] at h2
    cases h2
    rfl
  · rename_i m b2 h2
    rw [h] at h2
    cases h2

theorem generateVisit_throw (env : Nat → Attempt) (rc : Nat) (b b1 : TrafficBot) (m : String)
    (h : tryVisit (env rc) (b.emit (.visitStarted rc)) = (.throw m, b1)) :
    generateVisit env rc b =
      if (rc : Int) < b.config.maxRetries then
        generateVisit env (rc + 1) ((recordFailure b1 m rc).emit (.logRetry (rc + 1)))
      else recordFailure b1 m rc := by
  have hc := tryVisit_config (env rc) (b.emit (.visitStarted rc))
  rw [h] at hc
  simp only [emit_config] at hc
  rw [generateVisit]
  split
  · rename_i u2 b2 h2
    rw [h] at h2
    cases h2
  · rename_i m2 b2 h2
    rw [h] at h2
    cases h2
    have : (recordFailure b1 m rc).config = b.config := hc
    rw [this]

theorem tryVisit_proxyList (a : Attempt) (b : TrafficBot) :
    (tryVisit a b).2.proxyList = b.proxyList := by
  obtain ⟨r, ce, an, resp⟩ := a
  by_cases h1 : b.proxyList.length = 0 <;> by_cases h2 : truthyField b.proxyServer = true <;>
    cases ce <;> cases an <;> rcases resp with m | resp <;>
    try by_cases h3 : resp.ok = true
  all_goals simp [tryVisit, getRandomProxy, createProxyServer, closePrevious, emit, *]

theorem tryVisit_failedVisits (a : Attempt) (b : TrafficBot) :
    (tryVisit a b).2.failedVisits = b.failedVisits := by
  obtain ⟨r, ce, an, resp⟩ := a
  by_cases h1 : b.proxyList.length = 0 <;> by_cases h2 : truthyField b.proxyServer = true <;>
    cases ce <;> cases an <;> rcases resp with m | resp <;>
    try by_cases h3 : resp.ok = true
  all_goals simp [tryVisit, getRandomProxy, createProxyServer, closePrevious, emit, *]

theorem tryVisit_timers (a : Attempt) (b : TrafficBot) :
    (tryVisit a b).2.timers = b.timers := by
  obtain ⟨r, ce, an, resp⟩ := a
  by_cases h1 : b.proxyList.length = 0 <;> by_cases h2 : truthyField b.proxyServer = true <;>
    cases ce <;> cases an <;> rcases resp with m | resp <;>
    try by_cases h3 : resp.ok = true
  all_goals simp [tryVisit, getRandomProxy, createProxyServer, closePrevious, emit, *]

theorem tryVisit_attempts (a : Attempt) (b : TrafficBot) :
    attempts (tryVisit a b).2 = attempts b ∧
      attemptIndices (tryVisit a b).2 = attemptIndices b := by
  obtain ⟨r, ce, an, resp⟩ := a
  by_cases h1 : b.proxyList.length = 0 <;> by_cases h2 : truthyField b.proxyServer = true <;>
    cases ce <;> cases an <;> rcases resp with m | resp <;>
    try by_cases h3 : resp.ok = true
  all_goals simp [tryVisit, getRandomProxy, createProxyServer, closePrevious, emit, attempts,
    attemptIndices, isAttempt, List.filterMap_append, *]

theorem tryVisit_visitCount (a : Attempt) (b : TrafficBot) :
    (∀ m, (tryVisit a b).1 = .throw m → (tryVisit a b).2.visitCount = b.visitCount) ∧
    ((tryVisit a b).1 = .normal () → (tryVisit a b).2.visitCount = b.visitCount + 1) := by
  obtain ⟨r, ce, an, resp⟩ := a
  by_cases h1 : b.proxyList.length = 0 <;> by_cases h2 : truthyField b.proxyServer = true <;>
    cases ce <;> cases an <;> rcases resp with m | resp <;>
    try by_cases h3 : resp.ok = true
  all_goals simp [tryVisit, getRandomProxy, createProxyServer, closePrevious, emit, *]

theorem tryVisit_bad_response (a : Attempt) (b : TrafficBot)
    (hbad : ∀ r, a.response = .ok r → r.ok = false) :
    ∃ m, (tryVisit a b).1 = .throw m := by
  obtain ⟨r, ce, an, resp⟩ := a
  by_cases h1 : b.proxyList.length = 0 <;> by_cases h2 : truthyField b.proxyServer = true <;>
    cases ce <;> cases an <;> rcases resp with m | resp <;>
    try by_cases h3 : resp.ok = true
  all_goals simp_all [tryVisit, getRandomProxy, createProxyServer, closePrevious, emit]

theorem tryVisit_empty (a : Attempt) (b : TrafficBot) (hempty : b.proxyList = []) :
    tryVisit a b = (.throw "No proxies available", b) := by
  simp [tryVisit, getRandomProxy, hempty]

/-- Induction along the retry chain of `generateVisit`. -/
theorem generateVisit_induct (env : Nat → Attempt) (P : Nat → TrafficBot → TrafficBot → Prop)
    (hok : ∀ rc b b1, tryVisit (env rc) (b.emit (.visitStarted rc)) = (.normal (), b1) →
      P rc b b1)
    (hlast : ∀ rc b m b1, tryVisit (env rc) (b.emit (.visitStarted rc)) = (.throw m, b1) →
      ¬ (rc : Int) < b.config.maxRetries → P rc b (recordFailure b1 m rc))
    (hretry : ∀ rc b m b1 b2, tryVisit (env rc) (b.emit (.visitStarted rc)) = (.throw m, b1) →
      (rc : Int) < b.config.maxRetries →
      P (rc + 1) ((recordFailure b1 m rc).emit (.logRetry (rc + 1))) b2 → P rc b b2)
    (rc : Nat) (b : TrafficBot) : P rc b (generateVisit env rc b) := by
  generalize hd : (b.config.maxRetries - rc).toNat = d
  induction d generalizing rc b with
  | zero =>
    rcases hres : tryVisit (env rc) (b.emit (.visitStarted rc)) with ⟨c, b1⟩
    cases c with
    | normal u =>
      rw [generateVisit_normal env rc b b1 u hres]
      exact hok rc b b1 hres
    | throw m =>
      have hnot : ¬ (rc : Int) < b.config.maxRetries := by omega
      rw [generateVisit_throw env rc b b1 m hres, if_neg hnot]
      exact hlast rc b m b1 hres hnot
  | succ d ih =>
    rcases hres : tryVisit (env rc) (b.emit (.visitStarted rc)) with ⟨c, b1⟩
    cases c with
    | normal u =>
      rw [generateVisit_normal env rc b b1 u hres]
      exact hok rc b b1 hres
    | throw m =>
      have hlt : (rc : Int) < b.config.maxRetries := by omega
      have hc := tryVisit_config (env rc) (b.emit (.visitStarted rc))
      rw [hres] at hc
      simp only [emit_config] at hc
      rw [generateVisit_throw env rc b b1 m hres, if_pos hlt]
      apply hretry rc b m b1 _ hres hlt
      apply ih
      have : ((recordFailure b1 m rc).emit (.logRetry (rc + 1))).config = b1.config := rfl
      rw [this, hc]
      omega

theorem generateVisit_config (env : Nat → Attempt) (rc : Nat) (b : TrafficBot) :
    (generateVisit env rc b).config = b.config := by
  refine generateVisit_induct env (fun _ b b2 => b2.config = b.config) ?_ ?_ ?_ rc b
  · intro rc b b1 h
    have hc := tryVisit_config (env rc) (b.emit (.visitStarted rc))
    rw [h] at hc
    exact hc
  · intro rc b m b1 h _
    have hc := tryVisit_config (env rc) (b.emit (.visitStarted rc))
    rw [h] at hc
    exact hc
  · intro rc b m b1 b2 h _ ih
    have hc := tryVisit_config (env rc) (b.emit (.visitStarted rc))
    rw [h] at hc
    rw [ih]
    exact hc

theorem attempts_emit (b : TrafficBot) (e : Event) :
    attempts (b.emit e) = attempts b + (if isAttempt e then 1 else 0) := by
  simp [attempts, emit, List.countP_append, List.countP_cons]

theorem generateVisit_attempts_le (env : Nat → Attempt) (rc : Nat) (b : TrafficBot) :
    attempts (generateVisit env rc b) ≤ attempts b + (b.config.maxRetries - rc).toNat + 1 := by
  refine generateVisit_induct env
    (fun rc b b2 => attempts b2 ≤ attempts b + (b.config.maxRetries - rc).toNat + 1) ?_ ?_ ?_ rc b
  · intro rc b b1 h
    have ha := (tryVisit_attempts (env rc) (b.emit (.visitStarted rc))).1
    rw [h] at ha
    simp only [] at ha ⊢
    rw [ha, attempts_emit]
    simp [isAttempt]
  · intro rc b m b1 h _
    have ha := (tryVisit_attempts (env rc) (b.emit (.visitStarted rc))).1
    rw [h] at ha
    simp only [] at ha ⊢
    rw [recordFailure, attempts_emit]
    have : attempts { b1 with failedVisits := b1.failedVisits + 1 } = attempts b1 := rfl
    rw [this, ha, attempts_emit]
    simp [isAttempt]
  · intro rc b m b1 b2 h hlt ih
    have ha := (tryVisit_attempts (env rc) (b.emit (.visitStarted rc))).1
    have hc := tryVisit_config (env rc) (b.emit (.visitStarted rc))
    rw [h] at ha hc
    simp only [emit_config] at ha hc ih ⊢
    rw [attempts_emit, recordFailure, attempts_emit] at ih
    have h1 : attempts { b1 with failedVisits := b1.failedVisits + 1 } = attempts b1 := rfl
    have h2 : (recordFailure b1 m rc).config = b1.config := rfl
    rw [h1, ha, attempts_emit] at ih
    rw [recordFailure] at h2
    rw [h2, hc] at ih
    simp [isAttempt] at ih
    omega

/-- When no response is a success, every execution of the retry chain throws:
each one adds one to `failedVisits`, none changes `visitCount`. -/
theorem generateVisit_all_fail (env : Nat → Attempt)
    (hbad : ∀ k r, (env k).response = .ok r → r.ok = false) (rc : Nat) (b : TrafficBot) :
    (generateVisit env rc b).failedVisits
        = b.failedVisits + ((b.config.maxRetries - rc).toNat + 1) ∧
      (generateVisit env rc b).visitCount = b.visitCount := by
  refine generateVisit_induct env
    (fun rc b b2 => b2.failedVisits = b.failedVisits + ((b.config.maxRetries - rc).toNat + 1) ∧
      b2.visitCount = b.visitCount) ?_ ?_ ?_ rc b
  · intro rc b b1 h
    obtain ⟨m, hm⟩ := tryVisit_bad_response (env rc) (b.emit (.visitStarted rc)) (hbad rc)
    rw [h] at hm
    cases hm
  · intro rc b m b1 h hnot
    have hf := tryVisit_failedVisits (env rc) (b.emit (.visitStarted rc))
    have hv := (tryVisit_visitCount (env rc) (b.emit (.visitStarted rc))).1 m
    rw [h] at hf hv
    have hv := hv rfl
    have h0 : (b.config.maxRetries - rc).toNat = 0 := by omega
    constructor
    · show b1.failedVisits + 1 = _
      rw [hf, h0]
      rfl
    · exact hv
  · intro rc b m b1 b2 h hlt ih
    have hf := tryVisit_failedVisits (env rc) (b.emit (.visitStarted rc))
    have hv := (tryVisit_visitCount (env rc) (b.emit (.visitStarted rc))).1 m
    have hc := tryVisit_config (env rc) (b.emit (.visitStarted rc))
    rw [h] at hf hv hc
    have hv := hv rfl
    obtain ⟨ih1, ih2⟩ := ih
    have e1 : ((recordFailure b1 m rc).emit (.logRetry (rc + 1))).failedVisits
        = b1.failedVisits + 1 := rfl
    have e2 : ((recordFailure b1 m rc).emit (.logRetry (rc + 1))).visitCount
        = b1.visitCount := rfl
    have e3 : ((recordFailure b1 m rc).emit (.logRetry (rc + 1))).config = b1.config := rfl
    rw [e1, e3] at ih1
    rw [e2] at ih2
    simp only [emit_config] at hc hf hv
    have hf2 : b1.failedVisits = b.failedVisits := hf
    have hv2 : b1.visitCount = b.visitCount := hv
    rw [hc, hf2] at ih1
    rw [hv2] at ih2
    refine ⟨?_, ih2⟩
    rw [ih1]
    have : (b.config.maxRetries - rc).toNat = (b.config.maxRetries - ((rc + 1 : Nat) : Int)).toNat + 1 := by
      omega
    omega

theorem networkCalls_emit (b : TrafficBot) (e : Event) :
    networkCalls (b.emit e) = networkCalls b + (if isNetwork e then 1 else 0) := by
  simp [networkCalls, emit, List.countP_append, List.countP_cons]

theorem attemptIndices_emit (b : TrafficBot) (e : Event) :
    attemptIndices (b.emit e) = attemptIndices b ++
      (match e with
        | .visitStarted k => [k]
        | _ => []) := by
  cases e <;> simp [attemptIndices, emit, List.filterMap_append]

/-- With an empty proxy list every execution of the retry chain throws at the
pick, before any tunnel or request, and is counted and retried like any other
failure. -/
theorem generateVisit_empty (env : Nat → Attempt) (rc : Nat) (b : TrafficBot)
    (hempty : b.proxyList = []) :
    attempts (generateVisit env rc b) = attempts b + ((b.config.maxRetries - rc).toNat + 1) ∧
      networkCalls (generateVisit env rc b) = networkCalls b ∧
      (generateVisit env rc b).failedVisits
        = b.failedVisits + ((b.config.maxRetries - rc).toNat + 1) ∧
      (generateVisit env rc b).visitCount = b.visitCount := by
  revert hempty
  refine generateVisit_induct env
    (fun rc b b2 => b.proxyList = [] →
      attempts b2 = attempts b + ((b.config.maxRetries - rc).toNat + 1) ∧
      networkCalls b2 = networkCalls b ∧
      b2.failedVisits = b.failedVisits + ((b.config.maxRetries - rc).toNat + 1) ∧
      b2.visitCount = b.visitCount) ?_ ?_ ?_ rc b
  · intro rc b b1 h hempty
    rw [tryVisit_empty (env rc) (b.emit (.visitStarted rc)) hempty] at h
    cases h
  · intro rc b m b1 h hnot hempty
    rw [tryVisit_empty (env rc) (b.emit (.visitStarted rc)) hempty] at h
    cases h
    have h0 : (b.config.maxRetries - rc).toNat = 0 := by omega
    rw [h0]
    refine ⟨?_, ?_, rfl, rfl⟩
    · rw [recordFailure, attempts_emit]
      show attempts (b.emit (.visitStarted rc)) + _ = _
      rw [attempts_emit]
      simp [isAttempt]
    · rw [recordFailure, networkCalls_emit]
      show networkCalls (b.emit (.visitStarted rc)) + _ = _
      rw [networkCalls_emit]
      simp [isNetwork]
  · intro rc b m b1 b2 h hlt ih hempty
    rw [tryVisit_empty (env rc) (b.emit (.visitStarted rc)) hempty] at h
    cases h
    obtain ⟨i1, i2, i3, i4⟩ := ih hempty
    have hd : (b.config.maxRetries - rc).toNat
        = (b.config.maxRetries - ((rc + 1 : Nat) : Int)).toNat + 1 := by omega
    have e3 : ((recordFailure (b.emit (.visitStarted rc)) "No proxies available" rc).emit
        (.logRetry (rc + 1))).config = b.config := rfl
    have e1 : ((recordFailure (b.emit (.visitStarted rc)) "No proxies available" rc).emit
        (.logRetry (rc + 1))).failedVisits = b.failedVisits + 1 := rfl
    have e2 : ((recordFailure (b.emit (.visitStarted rc)) "No proxies available" rc).emit
        (.logRetry (rc + 1))).visitCount = b.visitCount := rfl
    have e4 : attempts ((recordFailure (b.emit (.visitStarted rc)) "No proxies available" rc).emit
        (.logRetry (rc + 1))) = attempts b + 1 := by
      rw [attempts_emit, recordFailure, attempts_emit]
      show attempts (b.emit (.visitStarted rc)) + _ + _ = _
      rw [attempts_emit]
      simp [isAttempt]
    have e5 : networkCalls
        ((recordFailure (b.emit (.visitStarted rc)) "No proxies available" rc).emit
        (.logRetry (rc + 1))) = networkCalls b := by
      rw [networkCalls_emit, recordFailure, networkCalls_emit]
      show networkCalls (b.emit (.visitStarted rc)) + _ + _ = _
      rw [networkCalls_emit]
      simp [isNetwork]
    rw [e3, e4] at i1
    rw [e5] at i2
    rw [e1, e3] at i3
    rw [e2] at i4
    refine ⟨?_, i2, ?_, i4⟩
    · rw [i1]; omega
    · rw [i3]; omega

/-- As long as the executions before `k` have thrown and `k` is within the
retry bound, the call `generateVisit(0)` continues as the call with
`retryCount = k` in the state `stateBefore env b k`. -/
theorem generateVisit_chain (env : Nat → Attempt) (b : TrafficBot) (k : Nat)
    (hk : (k : Int) ≤ b.config.maxRetries) (hfail : ∀ i, i < k → succeeds env b i = false) :
    generateVisit env 0 b = generateVisit env k (stateBefore env b k) ∧
      (stateBefore env b k).config = b.config ∧
      attempts (stateBefore env b k) = attempts b + k ∧
      attemptIndices (stateBefore env b k) = attemptIndices b ++ List.range k := by
  induction k with
  | zero => simp [stateBefore]
  | succ k ih =>
    obtain ⟨h1, h2, h3, h4⟩ := ih (by omega) (fun i hi => hfail i (by omega))
    have hf := hfail k (by omega)
    rcases hres : tryVisit (env k) ((stateBefore env b k).emit (.visitStarted k)) with ⟨c, b1⟩
    have hc := tryVisit_config (env k) ((stateBefore env b k).emit (.visitStarted k))
    have ha := tryVisit_attempts (env k) ((stateBefore env b k).emit (.visitStarted k))
    rw [hres] at hc ha
    simp only [emit_config] at hc
    cases c with
    | normal u => simp [succeeds, hres] at hf
    | throw m =>
      have hs : stateBefore env b (k + 1) = (recordFailure b1 m k).emit (.logRetry (k + 1)) := by
        simp [stateBefore, hres]
      have hlt : (k : Int) < (stateBefore env b k).config.maxRetries := by rw [h2]; omega
      rw [hs]
      refine ⟨?_, ?_, ?_, ?_⟩
      · rw [h1, generateVisit_throw env k _ b1 m hres, if_pos hlt]
      · show b1.config = b.config
        rw [hc, h2]
      · rw [attempts_emit, recordFailure, attempts_emit]
        show attempts b1 + _ + _ = _
        rw [ha.1, attempts_emit, h3]
        simp [isAttempt, Nat.add_assoc]
      · rw [attemptIndices_emit, recordFailure, attemptIndices_emit]
        show (attemptIndices b1 ++ _) ++ _ = _
        rw [ha.2, attemptIndices_emit, h4]
        simp [List.range_succ]

theorem generateVisit_attempts_ge (env : Nat → Attempt) (rc : Nat) (b : TrafficBot) :
    attempts b + 1 ≤ attempts (generateVisit env rc b) := by
  refine generateVisit_induct env (fun _ b b2 => attempts b + 1 ≤ attempts b2) ?_ ?_ ?_ rc b
  · intro rc b b1 h
    have ha := (tryVisit_attempts (env rc) (b.emit (.visitStarted rc))).1
    rw [h] at ha
    simp only [] at ha ⊢
    rw [ha, attempts_emit]
    simp [isAttempt]
  · intro rc b m b1 h _
    have ha := (tryVisit_attempts (env rc) (b.emit (.visitStarted rc))).1
    rw [h] at ha
    simp only [] at ha ⊢
    rw [recordFailure, attempts_emit]
    have : attempts { b1 with failedVisits := b1.failedVisits + 1 } = attempts b1 := rfl
    rw [this, ha, attempts_emit]
    simp [isAttempt]
  · intro rc b m b1 b2 h hlt ih
    have ha := (tryVisit_attempts (env rc) (b.emit (.visitStarted rc))).1
    rw [h] at ha
    simp only [] at ha ih ⊢
    rw [attempts_emit, recordFailure, attempts_emit] at ih
    have h1 : attempts { b1 with failedVisits := b1.failedVisits + 1 } = attempts b1 := rfl
    rw [h1, ha, attempts_emit] at ih
    simp [isAttempt] at ih
    omega

/-- The loop of `start` arms one visit timer for every value of its counter
below `concurrency` and changes nothing else. -/
theorem startLoop_eq (i : Nat) (b : TrafficBot) :
    startLoop i b =
      { b with timers := (b.timers ++ List.replicate (b.config.concurrency - i).toNat
          { callback := .visit, period := b.config.interval }) } := by
  generalize hd : (b.config.concurrency - i).toNat = d
  induction d generalizing i b with
  | zero =>
    rw [startLoop, if_neg (by omega)]
    simp
  | succ d ih =>
    rw [startLoop, if_pos (by omega)]
    rw [ih (i + 1) (b.setInterval .visit b.config.interval)
      (by show (b.config.concurrency - ((i + 1 : Nat) : Int)).toNat = d; omega)]
    simp [setInterval, List.replicate_succ]

theorem refreshProxies_refreshCalls (reply : ProviderReply) (b : TrafficBot) :
    refreshCalls (refreshProxies reply b).2 = refreshCalls b + 1 := by
  rcases reply with msg | msg | text
  · by_cases he : b.proxyList = [] <;>
      simp [refreshProxies, emit, refreshCalls, isProviderFetch, List.countP_append,
        List.countP_cons, he]
  · by_cases he : b.proxyList = [] <;>
      simp [refreshProxies, emit, refreshCalls, isProviderFetch, List.countP_append,
        List.countP_cons, he]
  · simp [refreshProxies, emit, refreshCalls, isProviderFetch, List.countP_append,
      List.countP_cons]

/-- With a `maxRetries` that is not positive the first attempt is the only one. -/
theorem generateVisit_single_attempt (env : Nat → Attempt) (b : TrafficBot)
    (h : b.config.maxRetries ≤ 0) :
    attempts (generateVisit env 0 b) = attempts b + 1 := by
  have h1 := generateVisit_attempts_le env 0 b
  have h2 := generateVisit_attempts_ge env 0 b
  have h3 : (b.config.maxRetries - ((0 : ℕ) : ℤ)).toNat = 0 := by omega
  rw [h3] at h1
  omega

/-- The method `cleanup()` changes no field of the bot: only the trace grows. -/
theorem cleanup_only_trace (closeError : Option String) (b : TrafficBot) :
    (cleanup closeError b).2 = { b with trace := (cleanup closeError b).2.trace } := by
  unfold cleanup
  cases closeError <;> split_ifs <;> rfl

theorem cleanup_timers (closeError : Option String) (b : TrafficBot) :
    (cleanup closeError b).2.timers = b.timers := by
  unfold cleanup
  cases closeError <;> split_ifs <;> rfl

theorem string_ne_empty_iff (s : String) : s ≠ "" ↔ s.data ≠ [] := by
  constructor
  · intro h hd
    apply h
    cases s
    simp_all
  · intro h hs
    apply h
    rw [hs]

theorem jsOr_string (v : Option String) (d : String) :
    StoredOrDefault (fun s => s ≠ "") v d (jsOr v d) := by
  constructor
  · intro x hx ht
    subst hx
    have : x.data ≠ [] := (string_ne_empty_iff x).mp ht
    simp [jsOr, Truthy.truthy, this]
  · intro h
    cases v with
    | none => rfl
    | some x =>
      have hx := h x rfl
      have : x.data = [] := by
        by_contra hc
        exact hx ((string_ne_empty_iff x).mpr hc)
      simp [jsOr, Truthy.truthy, this]

theorem jsOr_int (v : Option Int) (d : Int) :
    StoredOrDefault (fun n => n ≠ 0) v d (jsOr v d) := by
  constructor
  · intro x hx ht
    subst hx
    simp [jsOr, Truthy.truthy, ht]
  · intro h
    cases v with
    | none => rfl
    | some x =>
      have hx : x = 0 := by
        by_contra hc
        exact h x rfl hc
      simp [jsOr, Truthy.truthy, hx]

theorem jsOr_array (v : Option (List String)) (d : List String) :
    StoredOrDefault (fun _ => True) v d (jsOr v d) := by
  constructor
  · intro x hx _
    subst hx
    simp [jsOr, Truthy.truthy]
  · intro h
    cases v with
    | none => rfl
    | some x => exact absurd trivial (h x rfl)

/-! ### Splitting and trimming -/

theorem splitChars_ne_nil (l : List Char) : splitChars l ≠ [] := by
  cases l with
  | nil => simp [splitChars]
  | cons c cs =>
    rw [splitChars]
    split_ifs
    · simp
    · split <;> simp

theorem joinChars_splitChars (l : List Char) : joinChars (splitChars l) = l := by
  induction l with
  | nil => rfl
  | cons c cs ih =>
    rw [splitChars]
    split_ifs with hc
    · rcases hs : splitChars cs with _ | ⟨piece, rest⟩
      · exact absurd hs (splitChars_ne_nil cs)
      · rw [hs] at ih
        rw [joinChars, ih, hc]
        rfl
    · rcases hs : splitChars cs with _ | ⟨piece, rest⟩
      · exact absurd hs (splitChars_ne_nil cs)
      · rw [hs] at ih
        simp only []
        cases rest with
        | nil =>
          rw [joinChars] at ih ⊢
          rw [ih]
        | cons next rest =>
          rw [joinChars] at ih ⊢
          rw [← ih]
          rfl

theorem splitChars_no_newline (l : List Char) : ∀ piece ∈ splitChars l, '\n' ∉ piece := by
  induction l with
  | nil => simp [splitChars]
  | cons c cs ih =>
    rw [splitChars]
    split_ifs with hc
    · intro piece hp
      rcases List.mem_cons.mp hp with h | h
      · rw [h]; simp
      · exact ih piece h
    · rcases hs : splitChars cs with _ | ⟨piece, rest⟩
      · exact absurd hs (splitChars_ne_nil cs)
      · rw [hs] at ih
        intro q hq
        rcases List.mem_cons.mp hq with h | h
        · rw [h]
          intro hmem
          rcases List.mem_cons.mp hmem with h2 | h2
          · exact hc h2.symm
          · exact ih piece (List.mem_cons_self _ _) h2
        · exact ih q (List.mem_cons_of_mem _ h)

theorem splitChars_occurs (l : List Char) :
    ∀ piece ∈ splitChars l, ∃ pre post, l = pre ++ piece ++ post := by
  induction l with
  | nil =>
    intro piece hp
    simp only [splitChars, List.mem_singleton] at hp
    exact ⟨[], [], by rw [hp]; rfl⟩
  | cons c cs ih =>
    rw [splitChars]
    split_ifs with hc
    · intro piece hp
      rcases List.mem_cons.mp hp with h | h
      · exact ⟨[], c :: cs, by rw [h]; rfl⟩
      · obtain ⟨pre, post, hpp⟩ := ih piece h
        exact ⟨c :: pre, post, by rw [hpp]; simp⟩
    · rcases hs : splitChars cs with _ | ⟨piece, rest⟩
      · exact absurd hs (splitChars_ne_nil cs)
      · rw [hs] at ih
        intro q hq
        rcases List.mem_cons.mp hq with h | h
        · have hj := joinChars_splitChars cs
          rw [hs] at hj
          cases rest with
          | nil =>
            rw [joinChars] at hj
            exact ⟨[], [], by rw [h, ← hj]; simp⟩
          | cons next rest =>
            rw [joinChars] at hj
            exact ⟨[], '\n' :: joinChars (next :: rest), by rw [h, ← hj]; simp⟩
        · obtain ⟨pre, post, hpp⟩ := ih q (List.mem_cons_of_mem _ h)
          exact ⟨c :: pre, post, by rw [hpp]; simp⟩

theorem getLast?_dropWhile {α : Type} (p : α → Bool) (x : List α)
    (h : x.dropWhile p ≠ []) : (x.dropWhile p).getLast? = x.getLast? := by
  induction x with
  | nil => rfl
  | cons a x ih =>
    by_cases hp : p a = true
    · rw [List.dropWhile_cons_of_pos hp] at h ⊢
      rw [ih h]
      have hx : x ≠ [] := by
        intro hx
        rw [hx] at h
        exact h rfl
      obtain ⟨y, ys, rfl⟩ := List.exists_cons_of_ne_nil hx
      rfl
    · rw [List.dropWhile_cons_of_neg hp]

theorem trimChars_decompose (l : List Char) :
    ∃ pre post, l = pre ++ trimChars l ++ post ∧
      (∀ c ∈ pre, isWhiteSpace c = true) ∧ (∀ c ∈ post, isWhiteSpace c = true) := by
  refine ⟨l.takeWhile isWhiteSpace,
    ((l.dropWhile isWhiteSpace).reverse.takeWhile isWhiteSpace).reverse, ?_, ?_, ?_⟩
  · have h1 := List.takeWhile_append_dropWhile isWhiteSpace l
    have h2 := List.takeWhile_append_dropWhile isWhiteSpace (l.dropWhile isWhiteSpace).reverse
    have h3 := congrArg List.reverse h2
    rw [List.reverse_append, List.reverse_reverse] at h3
    unfold trimChars
    rw [List.append_assoc, h3, h1]
  · intro c hc
    exact List.mem_takeWhile_imp hc
  · intro c hc
    exact List.mem_takeWhile_imp (List.mem_reverse.mp hc)

theorem trimChars_eq_nil_iff (l : List Char) :
    trimChars l = [] ↔ ∀ c ∈ l, isWhiteSpace c = true := by
  unfold trimChars
  rw [List.reverse_eq_nil_iff, List.dropWhile_eq_nil_iff]
  constructor
  · intro h
    have hm : l.dropWhile isWhiteSpace = [] := by
      by_contra hne
      have hh := List.head_dropWhile_not isWhiteSpace l hne
      have := h _ (List.mem_reverse.mpr (List.head_mem hne))
      rw [hh] at this
      cases this
    exact List.dropWhile_eq_nil_iff.mp hm
  · intro h c hc
    have hm : l.dropWhile isWhiteSpace = [] := List.dropWhile_eq_nil_iff.mpr h
    rw [hm] at hc
    simp at hc

theorem trimChars_head (l : List Char) (c : Char) (h : (trimChars l).head? = some c) :
    isWhiteSpace c = false := by
  unfold trimChars at h
  rw [List.head?_reverse] at h
  have hne : (l.dropWhile isWhiteSpace).reverse.dropWhile isWhiteSpace ≠ [] := by
    intro he
    rw [he] at h
    cases h
  rw [getLast?_dropWhile _ _ hne, List.getLast?_reverse] at h
  have := List.head?_dropWhile_not isWhiteSpace l
  rw [h] at this
  exact this

theorem trimChars_last (l : List Char) (c : Char) (h : (trimChars l).getLast? = some c) :
    isWhiteSpace c = false := by
  unfold trimChars at h
  rw [List.getLast?_reverse] at h
  have := List.head?_dropWhile_not isWhiteSpace (l.dropWhile isWhiteSpace).reverse
  rw [h] at this
  exact this

theorem parseProxies_eq_spec (body : String) : parseProxies body = parseProxiesSpec body := by
  unfold parseProxies parseProxiesSpec
  congr 1
  apply List.filter_congr
  intro line _
  have h := trimChars_eq_nil_iff line.data
  by_cases hall : line.data.all isWhiteSpace = true
  · have : trimChars line.data = [] := h.mpr (List.all_eq_true.mp hall)
    simp [Truthy.truthy, trim, this, hall]
  · have : trimChars line.data ≠ [] := fun he => hall (List.all_eq_true.mpr (h.mp he))
    simp [Truthy.truthy, trim, this, hall]

theorem mem_parseProxies (body entry : String) (h : entry ∈ parseProxies body) :
    ∃ line ∈ splitChars body.data, trimChars line ≠ [] ∧ entry.data = trimChars line := by
  unfold parseProxies splitNewline at h
  simp only [List.mem_map, List.mem_filter] at h
  obtain ⟨s, ⟨⟨line, hline, rfl⟩, ht⟩, rfl⟩ := h
  refine ⟨line, hline, ?_, rfl⟩
  intro he
  simp [Truthy.truthy, trim, he] at ht

/-! ### Doubles -/

theorem log_two_eq (x : ℚ) (e : ℤ) (hlo : (2 : ℚ) ^ e ≤ x) (hhi : x < (2 : ℚ) ^ (e + 1)) :
    Int.log 2 x = e := by
  have hx : 0 < x := lt_of_lt_of_le (by positivity) hlo
  have h1 : e ≤ Int.log 2 x := (Int.zpow_le_iff_le_log (by norm_num) hx).mp (by exact_mod_cast hlo)
  have h2 : Int.log 2 x < e + 1 := (Int.lt_zpow_iff_log_lt (by norm_num) hx).mp (by exact_mod_cast hhi)
  omega

theorem ulp_pos (x : ℚ) : 0 < ulp x := by unfold ulp; positivity

theorem roundTiesEven_le (t : ℚ) : (roundTiesEven t : ℚ) ≤ t + 1 / 2 := by
  unfold roundTiesEven
  have hf := Int.floor_le t
  split_ifs with h1 h2 h3
  · linarith
  · push_cast; linarith [Int.lt_floor_add_one t]
  · linarith
  · push_cast
    have : t - ⌊t⌋ = 1 / 2 := le_antisymm (not_lt.mp h2) (not_lt.mp h1)
    linarith

theorem floor_le_roundTiesEven (t : ℚ) : ⌊t⌋ ≤ roundTiesEven t := by
  unfold roundTiesEven
  split_ifs <;> omega

theorem roundDouble_le (x : ℚ) (hx : 0 < x) : roundDouble x ≤ x + ulp x / 2 := by
  have hu := ulp_pos x
  rw [roundDouble, if_neg hx.ne', if_pos hx]
  have h := roundTiesEven_le (x / ulp x)
  have h2 := mul_le_mul_of_nonneg_right h hu.le
  have h3 : (x / ulp x + 1 / 2) * ulp x = x + ulp x / 2 := by
    field_simp
    ring
  linarith

theorem roundDouble_nonneg (x : ℚ) (hx : 0 ≤ x) : 0 ≤ roundDouble x := by
  rcases hx.eq_or_lt with h | h
  · rw [← h]; simp [roundDouble]
  · have hu := ulp_pos x
    rw [roundDouble, if_neg h.ne', if_pos h]
    have h1 : (0 : ℤ) ≤ ⌊x / ulp x⌋ := Int.floor_nonneg.mpr (by positivity)
    have h2 := floor_le_roundTiesEven (x / ulp x)
    have h3 : (0 : ℚ) ≤ (roundTiesEven (x / ulp x) : ℚ) := by exact_mod_cast le_trans h1 h2
    positivity

theorem half_ulp_lt (x : ℚ) (n : ℕ) (hx : 0 < x) (hn : x < n) :
    ulp x / 2 < n * (2 : ℚ) ^ (-53 : ℤ) := by
  have hn1 : (1 : ℚ) ≤ n := by
    have : 0 < n := by
      rcases Nat.eq_zero_or_pos n with h | h
      · subst h; simp at hn; linarith
      · exact h
    exact_mod_cast this
  unfold ulp
  by_cases he : -1022 ≤ Int.log 2 x
  · rw [max_eq_left he]
    have hlog : (2 : ℚ) ^ Int.log 2 x ≤ x := by
      have := Int.zpow_log_le_self (b := 2) (by norm_num) hx
      exact_mod_cast this
    have e1 : (2 : ℚ) ^ (Int.log 2 x - 52) / 2 = (2 : ℚ) ^ Int.log 2 x * (2 : ℚ) ^ (-53 : ℤ) := by
      rw [← zpow_add₀ (by norm_num)]
      rw [div_eq_iff (by norm_num)]
      have : (2 : ℚ) ^ (Int.log 2 x + -53) * 2 = (2 : ℚ) ^ (Int.log 2 x + -53 + 1) := by
        rw [zpow_add_one₀ (by norm_num)]
      rw [this]
      congr 1
      omega
    rw [e1]
    have hp : (0 : ℚ) < (2 : ℚ) ^ (-53 : ℤ) := by positivity
    have : (2 : ℚ) ^ Int.log 2 x < n := lt_of_le_of_lt hlog hn
    exact mul_lt_mul_of_pos_right this hp
  · rw [max_eq_right (by omega)]
    have h1 : (2 : ℚ) ^ ((-1022 : ℤ) - 52) / 2 < (2 : ℚ) ^ (-53 : ℤ) := by
      rw [div_lt_iff₀ (by norm_num)]
      have : (2 : ℚ) ^ (-53 : ℤ) * 2 = (2 : ℚ) ^ (-52 : ℤ) := by
        rw [← zpow_add_one₀ (by norm_num)]; norm_num
      rw [this]
      exact zpow_lt_zpow_right₀ (by norm_num) (by norm_num)
    have hp : (0 : ℚ) < (2 : ℚ) ^ (-53 : ℤ) := by positivity
    nlinarith

/-- The normal case of `roundDouble`, with the binary exponent given. -/
theorem roundDouble_eval (x : ℚ) (e : ℤ) (he : -1022 ≤ e) (hlo : (2 : ℚ) ^ e ≤ x)
    (hhi : x < (2 : ℚ) ^ (e + 1)) :
    roundDouble x = roundTiesEven (x / (2 : ℚ) ^ (e - 52)) * (2 : ℚ) ^ (e - 52) := by
  have hx : 0 < x := lt_of_lt_of_le (by positivity) hlo
  have hu : ulp x = (2 : ℚ) ^ (e - 52) := by
    unfold ulp
    rw [log_two_eq x e hlo hhi, max_eq_left he]
  rw [roundDouble, if_neg hx.ne', if_pos hx, hu]

/-- A double below 1 is at most `1 - 2 ^ (-53)`. -/
theorem double_lt_one (r : ℚ) (hr : isDouble r) (h1 : r < 1) : r ≤ 1 - (2 : ℚ) ^ (-53 : ℤ) := by
  by_cases hhalf : r < 1 / 2
  · have : (1 : ℚ) / 2 ≤ 1 - (2 : ℚ) ^ (-53 : ℤ) := by norm_num
    exact le_trans hhalf.le this
  · have hlo : (2 : ℚ) ^ (-1 : ℤ) ≤ r := by
      have : (2 : ℚ) ^ (-1 : ℤ) = 1 / 2 := by norm_num
      rw [this]; exact not_lt.mp hhalf
    have hhi : r < (2 : ℚ) ^ ((-1 : ℤ) + 1) := by simpa using h1
    have hev := roundDouble_eval r (-1) (by norm_num) hlo hhi
    unfold isDouble at hr
    rw [hr] at hev
    have hp : (0 : ℚ) < (2 : ℚ) ^ ((-1 : ℤ) - 52) := by positivity
    have hpow : (2 : ℚ) ^ ((-1 : ℤ) - 52) = (2 : ℚ) ^ (-53 : ℤ) := by norm_num
    rw [hpow] at hev hp
    set N := roundTiesEven (r / (2 : ℚ) ^ (-53 : ℤ)) with hN
    have hinv : (2 : ℚ) ^ (-53 : ℤ) * (2 : ℚ) ^ (53 : ℕ) = 1 := by norm_num
    have hlt : (N : ℚ) < (2 : ℚ) ^ (53 : ℕ) := by
      have h2 : (N : ℚ) * (2 : ℚ) ^ (-53 : ℤ) < 1 := by rw [← hev]; exact h1
      have h3 : (N : ℚ) * (2 : ℚ) ^ (-53 : ℤ) < (2 : ℚ) ^ (53 : ℕ) * (2 : ℚ) ^ (-53 : ℤ) := by
        rw [mul_comm ((2 : ℚ) ^ (53 : ℕ)), hinv]; exact h2
      exact lt_of_mul_lt_mul_right h3 hp.le
    have hlt2 : N < (2 : ℤ) ^ (53 : ℕ) := by exact_mod_cast hlt
    have hle : N ≤ (2 : ℤ) ^ (53 : ℕ) - 1 := by omega
    have hle2 : (N : ℚ) ≤ (2 : ℚ) ^ (53 : ℕ) - 1 := by exact_mod_cast hle
    rw [hev]
    have h4 := mul_le_mul_of_nonneg_right hle2 hp.le
    have h5 : ((2 : ℚ) ^ (53 : ℕ) - 1) * (2 : ℚ) ^ (-53 : ℤ) = 1 - (2 : ℚ) ^ (-53 : ℤ) := by
      rw [sub_mul, mul_comm, hinv, one_mul]
    linarith

/-- The double product of a double in `[0, 1)` and a positive length stays
below the length. -/
theorem roundDouble_mul_lt (r : ℚ) (n : ℕ) (hr : isDouble r) (h0 : 0 ≤ r) (h1 : r < 1)
    (hn : 0 < n) : 0 ≤ roundDouble (r * n) ∧ roundDouble (r * n) < n := by
  have hnq : (0 : ℚ) < n := by exact_mod_cast hn
  refine ⟨roundDouble_nonneg _ (by positivity), ?_⟩
  rcases h0.eq_or_lt with h | hpos
  · rw [← h]; simpa [roundDouble] using hnq
  · have hx : 0 < r * n := by positivity
    have hxn : r * n < n := by nlinarith
    have hle := roundDouble_le (r * n) hx
    have hhalf := half_ulp_lt (r * n) n hx hxn
    have hr1 := double_lt_one r hr h1
    generalize (2 : ℚ) ^ (-53 : ℤ) = c at hhalf hr1
    have : r * n ≤ n - n * c := by nlinarith
    linarith


theorem roundTiesEven_intCast (n : ℤ) : roundTiesEven (n : ℚ) = n := by
  unfold roundTiesEven
  rw [Int.floor_intCast]
  norm_num

theorem roundTiesEven_of_lt (t : ℚ) (n : ℤ) (h1 : (n : ℚ) ≤ t) (h2 : t < n + 1 / 2) :
    roundTiesEven t = n := by
  have hf : ⌊t⌋ = n := by
    rw [Int.floor_eq_iff]
    constructor
    · exact h1
    · linarith
  unfold roundTiesEven
  rw [hf, if_pos (by linarith)]

theorem ulp_le_self (x : ℚ) (hx : 1 ≤ x) : ulp x ≤ x := by
  have hpos : 0 < x := by linarith
  have he : (0 : ℤ) ≤ Int.log 2 x :=
    (Int.zpow_le_iff_le_log (by norm_num) hpos).mp (by simpa using hx)
  have hlog : (2 : ℚ) ^ Int.log 2 x ≤ x := by
    have := Int.zpow_log_le_self (b := 2) (by norm_num) hpos
    exact_mod_cast this
  unfold ulp
  rw [max_eq_left (by omega)]
  refine le_trans ?_ hlog
  exact zpow_le_zpow_right₀ (by norm_num) (by omega)

/-- Rounding does not turn the negative of a number from 1 on into zero. -/
theorem roundDouble_neg_lt (x : ℚ) (hx : 1 ≤ x) : roundDouble (-x) < 0 := by
  have hpos : 0 < x := by linarith
  have hu := ulp_pos x
  rw [roundDouble, if_neg (by linarith), if_neg (by linarith), neg_neg]
  have ht : (1 : ℚ) ≤ x / ulp x := by
    rw [le_div_iff₀ hu, one_mul]
    exact ulp_le_self x hx
  have hf : (1 : ℤ) ≤ ⌊x / ulp x⌋ := Int.le_floor.mpr (by exact_mod_cast ht)
  have hN : (1 : ℤ) ≤ roundTiesEven (x / ulp x) := le_trans hf (floor_le_roundTiesEven _)
  have hNq : (1 : ℚ) ≤ (roundTiesEven (x / ulp x) : ℚ) := by exact_mod_cast hN
  have : 0 < (roundTiesEven (x / ulp x) : ℚ) * ulp x := by positivity
  linarith

/-- The rounding of a result that lies at or less than half a spacing above a
double of the same binade, with no overflow. -/
theorem ofRat_eval (x : ℚ) (e N : ℤ) (he : -1022 ≤ e) (hlo : (2 : ℚ) ^ e ≤ x)
    (hhi : x < (2 : ℚ) ^ (e + 1)) (h1 : (N : ℚ) * (2 : ℚ) ^ (e - 52) ≤ x)
    (h2 : x < ((N : ℚ) + 1 / 2) * (2 : ℚ) ^ (e - 52)) (hfin : x < (2 : ℚ) ^ 1024) :
    JSNumber.ofRat x = .finite ((N : ℚ) * (2 : ℚ) ^ (e - 52)) := by
  have hu : (0 : ℚ) < (2 : ℚ) ^ (e - 52) := by positivity
  have hN : roundTiesEven (x / (2 : ℚ) ^ (e - 52)) = N := by
    apply roundTiesEven_of_lt
    · rw [le_div_iff₀ hu]; exact h1
    · rw [div_lt_iff₀ hu]; exact h2
  have hr : roundDouble x = (N : ℚ) * (2 : ℚ) ^ (e - 52) := by
    rw [roundDouble_eval x e he hlo hhi, hN]
  have hx : 0 < x := lt_of_lt_of_le (by positivity) hlo
  have hnn := roundDouble_nonneg x hx.le
  unfold JSNumber.ofRat
  rw [if_neg, if_neg, hr]
  · have : (0 : ℚ) < (2 : ℚ) ^ 1024 := by positivity
    intro h
    linarith
  · rw [hr]
    intro h
    linarith

/-! ## Worked examples -/

/-- With no visit counted, `getStats()` divides by zero: the success rate is
"NaN%" when no failure is counted either, and "-Infinity%" otherwise. -/
theorem getStats_zero_visits (numberToString : ℚ → String) (b : TrafficBot)
    (h : b.visitCount = 0) :
    (getStats numberToString b).successRate
      = if b.failedVisits = 0 then "NaN%" else "-Infinity%" := by
  have hbig : ¬ ((2 : ℚ) ^ 1024 ≤ 0) := by
    have : (0 : ℚ) < (2 : ℚ) ^ 1024 := by positivity
    exact not_le.mpr this
  by_cases hf : b.failedVisits = 0
  · have h0 : JSNumber.ofRat 0 = .finite 0 := by
      simp [JSNumber.ofRat, roundDouble, hbig]
    simp [getStats, h, hf, JSNumber.sub, JSNumber.div, JSNumber.mul, JSNumber.toFixed2, h0]
  · have hone : (1 : ℚ) ≤ (b.failedVisits : ℚ) := by
      exact_mod_cast Nat.one_le_iff_ne_zero.mpr hf
    have hneg := roundDouble_neg_lt (b.failedVisits : ℚ) hone
    have hsub : (JSNumber.finite ((0 : ℕ) : ℚ)).sub (.finite (b.failedVisits : ℚ))
        = .negInfinity ∨ ∃ y, y < 0 ∧
          (JSNumber.finite ((0 : ℕ) : ℚ)).sub (.finite (b.failedVisits : ℚ)) = .finite y := by
      have hz : ((0 : ℕ) : ℚ) - (b.failedVisits : ℚ) = -(b.failedVisits : ℚ) := by
        rw [Nat.cast_zero, zero_sub]
      simp only [JSNumber.sub, JSNumber.ofRat, hz]
      have hnot : ¬ ((2 : ℚ) ^ 1024 ≤ roundDouble (-(b.failedVisits : ℚ))) := by
        have : (0 : ℚ) < (2 : ℚ) ^ 1024 := by positivity
        intro hc
        linarith
      rw [if_neg hnot]
      split_ifs
      · exact Or.inl rfl
      · exact Or.inr ⟨_, hneg, rfl⟩
    have hrate : ((((JSNumber.finite ((0 : ℕ) : ℚ)).sub (.finite (b.failedVisits : ℚ))).div
        (.finite ((0 : ℕ) : ℚ))).mul (.finite 100)) = .negInfinity := by
      rcases hsub with hs | ⟨y, hy, hs⟩
      · rw [hs]
        simp [JSNumber.div, JSNumber.mul]
      · rw [hs]
        have hy0 : ¬ y = 0 := hy.ne
        have hy1 : ¬ 0 < y := not_lt.mpr hy.le
        simp [JSNumber.div, JSNumber.mul, hy0, hy1]
    simp only [getStats, h, if_neg hf]
    rw [hrate]
    rfl

/-- A listing with a carriage return, an empty line and a blank line. -/
theorem parseProxies_example :
    parseProxies " 1.2.3.4:80\r\n\n \t \n5.6.7.8:8080 \n" = ["1.2.3.4:80", "5.6.7.8:8080"] := by
  decide

/-- Scenario A with two failures and then a success, evaluated: the third
attempt is the first to succeed, three attempts are made, and the counters end
at one visit and two failures. -/
theorem scenarioA_third_attempt_succeeds :
    succeeds failTwiceThenOk scenarioA 0 = false ∧
    succeeds failTwiceThenOk scenarioA 1 = false ∧
    succeeds failTwiceThenOk scenarioA 2 = true ∧
    attemptIndices (generateVisit failTwiceThenOk 0 scenarioA) = [0, 1, 2] ∧
    (generateVisit failTwiceThenOk 0 scenarioA).visitCount = 1 ∧
    (generateVisit failTwiceThenOk 0 scenarioA).failedVisits = 2 ∧
    (generateVisit failTwiceThenOk 0 scenarioA).trace.getLast? = some (.logVisitSuccess 1 200) := by
  have h0 : succeeds failTwiceThenOk scenarioA 0 = false := by decide
  have h1 : succeeds failTwiceThenOk scenarioA 1 = false := by decide
  have h2 : succeeds failTwiceThenOk scenarioA 2 = true := by decide
  have hchain := (generateVisit_chain failTwiceThenOk scenarioA 2 (by decide) (by
    intro i hi
    interval_cases i
    · exact h0
    · exact h1)).1
  rcases hres : tryVisit (failTwiceThenOk 2)
    ((stateBefore failTwiceThenOk scenarioA 2).emit (.visitStarted 2)) with ⟨c, b1⟩
  cases c with
  | throw m => simp [succeeds, hres] at h2
  | normal u =>
    rw [generateVisit_normal _ 2 _ b1 u hres] at hchain
    have hb1 : b1 = (tryVisit (failTwiceThenOk 2)
      ((stateBefore failTwiceThenOk scenarioA 2).emit (.visitStarted 2))).2 := by rw [hres]
    rw [hchain, hb1]
    refine ⟨h0, h1, h2, ?_, ?_, ?_, ?_⟩ <;> decide

/-- Scenario C of the specification, evaluated: fifteen visits and no failure
give the success rate "100.00%".  Two failures for three visits give "33.33%".
With 160 visits and 63 failures the double arithmetic yields a rate just
under 60.625, printed "60.62%". -/
theorem getStats_examples (numberToString : ℚ → String) :
    (getStats numberToString { fresh with visitCount := 15 }).successRate = "100.00%" ∧
    (getStats numberToString { fresh with visitCount := 3, failedVisits := 2 }).successRate
      = "33.33%" ∧
    (getStats numberToString { fresh with visitCount := 160, failedVisits := 63 }).successRate
      = "60.62%" ∧
    (getStats numberToString { fresh with failedVisits := 2 }).successRate = "-Infinity%" := by
  have r15 : JSNumber.ofRat 15 = .finite 15 := by
    rw [ofRat_eval 15 3 8444249301319680 (by norm_num) (by norm_num) (by norm_num)
      (by norm_num) (by norm_num) (by norm_num)]
    norm_num
  have r1 : JSNumber.ofRat 1 = .finite 1 := by
    rw [ofRat_eval 1 0 4503599627370496 (by norm_num) (by norm_num) (by norm_num)
      (by norm_num) (by norm_num) (by norm_num)]
    norm_num
  have r100 : JSNumber.ofRat 100 = .finite 100 := by
    rw [ofRat_eval 100 6 7036874417766400 (by norm_num) (by norm_num) (by norm_num)
      (by norm_num) (by norm_num) (by norm_num)]
    norm_num
  have r97 : JSNumber.ofRat 97 = .finite 97 := by
    rw [ofRat_eval 97 6 6825768185233408 (by norm_num) (by norm_num) (by norm_num)
      (by norm_num) (by norm_num) (by norm_num)]
    norm_num
  have rthird : JSNumber.ofRat (1 / 3)
      = .finite (6004799503160661 / 18014398509481984) := by
    rw [ofRat_eval (1 / 3) (-2) 6004799503160661 (by norm_num) (by norm_num) (by norm_num)
      (by norm_num) (by norm_num) (by norm_num)]
    norm_num
  have rthird100 : JSNumber.ofRat (6004799503160661 / 18014398509481984 * 100)
      = .finite (2345624805922133 / 70368744177664) := by
    rw [ofRat_eval _ 5 4691249611844266 (by norm_num) (by norm_num) (by norm_num)
      (by norm_num) (by norm_num) (by norm_num)]
    norm_num
  have rq : JSNumber.ofRat (97 / 160)
      = .finite (2730307274093363 / 4503599627370496) := by
    rw [ofRat_eval (97 / 160) (-1) 5460614548186726 (by norm_num) (by norm_num)
      (by norm_num) (by norm_num) (by norm_num) (by norm_num)]
    norm_num
  have rq100 : JSNumber.ofRat (2730307274093363 / 4503599627370496 * 100)
      = .finite (8532210231541759 / 140737488355328) := by
    rw [ofRat_eval _ 5 8532210231541759 (by norm_num) (by norm_num) (by norm_num)
      (by norm_num) (by norm_num) (by norm_num)]
    norm_num
  have f1 : ⌊|(100 : ℚ)| * 100 + 1 / 2⌋ = 10000 := by
    rw [Int.floor_eq_iff, abs_of_pos (by norm_num)]
    norm_num
  have f2 : ⌊|(2345624805922133 / 70368744177664 : ℚ)| * 100 + 1 / 2⌋ = 3333 := by
    rw [Int.floor_eq_iff, abs_of_pos (by norm_num)]
    norm_num
  have f3 : ⌊|(8532210231541759 / 140737488355328 : ℚ)| * 100 + 1 / 2⌋ = 6062 := by
    rw [Int.floor_eq_iff, abs_of_pos (by norm_num)]
    norm_num
  refine ⟨?_, ?_, ?_, ?_⟩
  · have e1 : ((15 : ℕ) : ℚ) - ((0 : ℕ) : ℚ) = 15 := by norm_num
    have e2 : (15 : ℚ) / ((15 : ℕ) : ℚ) = 1 := by norm_num
    have e3 : (1 : ℚ) * 100 = 100 := by norm_num
    have hlt : ¬ ((10 : ℚ) ^ 21 ≤ |(100 : ℚ)|) := by
      rw [abs_of_pos (by norm_num)]; norm_num
    have hrate : ((((JSNumber.finite ((15 : ℕ) : ℚ)).sub (.finite ((0 : ℕ) : ℚ))).div
        (.finite ((15 : ℕ) : ℚ))).mul (.finite 100)) = .finite 100 := by
      simp only [JSNumber.sub, e1, r15, JSNumber.div, if_neg (show ¬ ((15 : ℕ) : ℚ) = 0 by norm_num),
        e2, r1, JSNumber.mul, e3, r100]
    show (JSNumber.toFixed2 numberToString _) ++ "%" = _
    have hfields : ((((JSNumber.finite (({ fresh with visitCount := 15 } : TrafficBot).visitCount : ℚ)).sub
        (.finite (({ fresh with visitCount := 15 } : TrafficBot).failedVisits : ℚ))).div
        (.finite (({ fresh with visitCount := 15 } : TrafficBot).visitCount : ℚ))).mul
        (.finite 100)) = .finite 100 := hrate
    rw [hfields]
    simp only [JSNumber.toFixed2, if_neg hlt, f1, if_neg (show ¬ ((100 : ℚ) < 0) by norm_num)]
    decide
  · have e1 : ((3 : ℕ) : ℚ) - ((2 : ℕ) : ℚ) = 1 := by norm_num
    have e2 : (1 : ℚ) / ((3 : ℕ) : ℚ) = 1 / 3 := by norm_num
    have hpos : (0 : ℚ) < 2345624805922133 / 70368744177664 := by norm_num
    have hlt : ¬ ((10 : ℚ) ^ 21 ≤ |(2345624805922133 / 70368744177664 : ℚ)|) := by
      rw [abs_of_pos hpos]; norm_num
    have hrate : ((((JSNumber.finite ((3 : ℕ) : ℚ)).sub (.finite ((2 : ℕ) : ℚ))).div
        (.finite ((3 : ℕ) : ℚ))).mul (.finite 100))
        = .finite (2345624805922133 / 70368744177664) := by
      simp only [JSNumber.sub, e1, r1, JSNumber.div, if_neg (show ¬ ((3 : ℕ) : ℚ) = 0 by norm_num),
        e2, rthird, JSNumber.mul, rthird100]
    show (JSNumber.toFixed2 numberToString _) ++ "%" = _
    have hfields : ((((JSNumber.finite
        (({ fresh with visitCount := 3, failedVisits := 2 } : TrafficBot).visitCount : ℚ)).sub
        (.finite (({ fresh with visitCount := 3, failedVisits := 2 } : TrafficBot).failedVisits : ℚ))).div
        (.finite (({ fresh with visitCount := 3, failedVisits := 2 } : TrafficBot).visitCount : ℚ))).mul
        (.finite 100)) = .finite (2345624805922133 / 70368744177664) := hrate
    rw [hfields]
    simp only [JSNumber.toFixed2, if_neg hlt, f2, if_neg (not_lt.mpr hpos.le)]
    decide
  · have e1 : ((160 : ℕ) : ℚ) - ((63 : ℕ) : ℚ) = 97 := by norm_num
    have e2 : (97 : ℚ) / ((160 : ℕ) : ℚ) = 97 / 160 := by norm_num
    have hpos : (0 : ℚ) < 8532210231541759 / 140737488355328 := by norm_num
    have hlt : ¬ ((10 : ℚ) ^ 21 ≤ |(8532210231541759 / 140737488355328 : ℚ)|) := by
      rw [abs_of_pos hpos]; norm_num
    have hrate : ((((JSNumber.finite ((160 : ℕ) : ℚ)).sub (.finite ((63 : ℕ) : ℚ))).div
        (.finite ((160 : ℕ) : ℚ))).mul (.finite 100))
        = .finite (8532210231541759 / 140737488355328) := by
      simp only [JSNumber.sub, e1, r97, JSNumber.div,
        if_neg (show ¬ ((160 : ℕ) : ℚ) = 0 by norm_num), e2, rq, JSNumber.mul, rq100]
    show (JSNumber.toFixed2 numberToString _) ++ "%" = _
    have hfields : ((((JSNumber.finite
        (({ fresh with visitCount := 160, failedVisits := 63 } : TrafficBot).visitCount : ℚ)).sub
        (.finite (({ fresh with visitCount := 160, failedVisits := 63 } : TrafficBot).failedVisits : ℚ))).div
        (.finite (({ fresh with visitCount := 160, failedVisits := 63 } : TrafficBot).visitCount : ℚ))).mul
        (.finite 100)) = .finite (8532210231541759 / 140737488355328) := hrate
    rw [hfields]
    simp only [JSNumber.toFixed2, if_neg hlt, f3, if_neg (not_lt.mpr hpos.le)]
    decide
  · rw [getStats_zero_visits numberToString _ rfl]
    rfl

theorem drawNearFourSevenths_isDouble : isDouble drawNearFourSevenths := by
  unfold isDouble drawNearFourSevenths
  rw [roundDouble_eval _ (-1) (by norm_num) (by norm_num) (by norm_num)]
  have ht : (2573485501354569 / 4503599627370496 : ℚ) / (2 : ℚ) ^ ((-1 : ℤ) - 52)
      = ((5146971002709138 : ℤ) : ℚ) := by norm_num
  rw [ht, roundTiesEven_intCast]
  norm_num

/-- The double product of the draw `2573485501354569 / 2 ^ 52` and 7 is 4 (a
tie, rounded to the even significand), while the exact product is below 4. -/
theorem drawNearFourSevenths_product :
    roundDouble (drawNearFourSevenths * (7 : ℕ)) = 4 ∧ drawNearFourSevenths * 7 < 4 := by
  constructor
  · unfold drawNearFourSevenths
    rw [roundDouble_eval _ 1 (by norm_num) (by norm_num) (by norm_num)]
    have ht : (2573485501354569 / 4503599627370496 * ((7 : ℕ) : ℚ)) / (2 : ℚ) ^ ((1 : ℤ) - 52)
        = ((9007199254740991 : ℤ) : ℚ) + 1 / 2 := by norm_num
    rw [ht]
    have hf : ⌊((9007199254740991 : ℤ) : ℚ) + 1 / 2⌋ = 9007199254740991 := by
      rw [Int.floor_eq_iff]; norm_num
    have hr : roundTiesEven (((9007199254740991 : ℤ) : ℚ) + 1 / 2) = 9007199254740992 := by
      unfold roundTiesEven
      rw [hf]
      norm_num
    rw [hr]
    norm_num
  · norm_num [drawNearFourSevenths]

/-- With seven proxies and that draw `getRandomProxy` returns the entry at
index 4, where the floor of the exact product is 3. -/
theorem getRandomProxy_sevenProxies :
    (getRandomProxy drawNearFourSevenths sevenProxies).1 = .normal (some "a4") ∧
      ⌊drawNearFourSevenths * 7⌋ = 3 := by
  constructor
  · have hlen : sevenProxies.proxyList.length = 7 := rfl
    have hp := drawNearFourSevenths_product.1
    simp only [getRandomProxy, hlen, hp, mathFloor, index]
    have hf : ⌊(4 : ℚ)⌋ = 4 := by
      have : ((4 : ℤ) : ℚ) = 4 := by norm_num
      rw [← this, Int.floor_intCast]
    rw [hf]
    rfl
  · rw [Int.floor_eq_iff]
    norm_num [drawNearFourSevenths]

/-! ## The claims -/

/-- C1, as the code has it: when no response of the retry chain is a success
(the request rejects or the status is not ok), one call `generateVisit()`
adds one to `failedVisits` per attempt (`maxRetries + 1` in total for a
non-negative `maxRetries`) and leaves `visitCount` unchanged. -/
theorem C1_failedVisits_per_attempt (env : Nat → Attempt) (b : TrafficBot)
    (hbad : ∀ k r, (env k).response = .ok r → r.ok = false) :
    (generateVisit env 0 b).failedVisits = b.failedVisits + (b.config.maxRetries.toNat + 1) ∧
      (generateVisit env 0 b).visitCount = b.visitCount := by
  have h := generateVisit_all_fail env hbad 0 b
  simpa using h

/-- Witness of C1 as amended: scenario A with a target that always answers 500. -/
theorem C1_failedVisits_per_attempt_witness :
    (∀ k r, (alwaysStatus 500 k).response = .ok r → r.ok = false) ∧
      (generateVisit (alwaysStatus 500) 0 scenarioA).failedVisits
        = scenarioA.failedVisits + (scenarioA.config.maxRetries.toNat + 1) ∧
      (generateVisit (alwaysStatus 500) 0 scenarioA).visitCount = scenarioA.visitCount :=
  ⟨by intro k r h; simp only [alwaysStatus, Except.ok.injEq] at h; subst h; decide,
   C1_failedVisits_per_attempt (alwaysStatus 500) scenarioA
    (by intro k r h; simp only [alwaysStatus, Except.ok.injEq] at h; subst h; decide)⟩

/-- C1, counterexample: in scenario A (proxies `[p1, p2, p3]`, `maxRetries` 2,
target always 500) one call raises `failedVisits` from 0 to 3, not to 1. -/
theorem C1_counterexample :
    scenarioA.config.maxRetries = 2 ∧ scenarioA.proxyList = ["p1", "p2", "p3"] ∧
      scenarioA.failedVisits = 0 ∧
      (∀ k, (alwaysStatus 500 k).response = .ok { status := 500 }) ∧
      (generateVisit (alwaysStatus 500) 0 scenarioA).failedVisits = 3 ∧
      (generateVisit (alwaysStatus 500) 0 scenarioA).failedVisits ≠ scenarioA.failedVisits + 1 := by
  have h := (generateVisit_all_fail (alwaysStatus 500)
    (by intro k r h; simp only [alwaysStatus, Except.ok.injEq] at h; subst h; decide)
    0 scenarioA).1
  have hR : scenarioA.config.maxRetries = 2 := by decide
  have hf : scenarioA.failedVisits = 0 := rfl
  rw [hR, hf] at h
  have h3 : (generateVisit (alwaysStatus 500) 0 scenarioA).failedVisits = 3 := by
    rw [h]; rfl
  refine ⟨hR, rfl, hf, fun _ => rfl, h3, ?_⟩
  rw [h3, hf]
  decide

/-- C2: for a non-negative `maxRetries = R`, one call `generateVisit()` performs
at most `R + 1` attempts, with retry counts `0, 1, ...` in sequence; exactly
`R + 1` when all of them fail; and exactly `k + 1` when the attempt with retry
count `k` is the first to succeed, the call then ending in the state that
successful attempt leaves. -/
theorem C2_attempts_bounded (env : Nat → Attempt) (b : TrafficBot)
    (hR : 0 ≤ b.config.maxRetries) :
    attempts (generateVisit env 0 b) ≤ attempts b + (b.config.maxRetries.toNat + 1) ∧
    ((∀ k, k ≤ b.config.maxRetries.toNat → succeeds env b k = false) →
      attempts (generateVisit env 0 b) = attempts b + (b.config.maxRetries.toNat + 1) ∧
      attemptIndices (generateVisit env 0 b)
        = attemptIndices b ++ List.range (b.config.maxRetries.toNat + 1)) ∧
    (∀ k, k ≤ b.config.maxRetries.toNat → (∀ i, i < k → succeeds env b i = false) →
      succeeds env b k = true →
      attempts (generateVisit env 0 b) = attempts b + (k + 1) ∧
      attemptIndices (generateVisit env 0 b) = attemptIndices b ++ List.range (k + 1) ∧
      generateVisit env 0 b
        = (tryVisit (env k) ((stateBefore env b k).emit (.visitStarted k))).2) := by
  refine ⟨?_, ?_, ?_⟩
  · have h := generateVisit_attempts_le env 0 b
    simp only [Nat.cast_zero, sub_zero] at h
    omega
  · intro hall
    obtain ⟨h1, h2, h3, h4⟩ := generateVisit_chain env b b.config.maxRetries.toNat (by omega)
      (fun i hi => hall i (by omega))
    have hf := hall b.config.maxRetries.toNat (le_refl _)
    rcases hres : tryVisit (env b.config.maxRetries.toNat)
      ((stateBefore env b b.config.maxRetries.toNat).emit
        (.visitStarted b.config.maxRetries.toNat)) with ⟨c, b1⟩
    have ha := tryVisit_attempts (env b.config.maxRetries.toNat)
      ((stateBefore env b b.config.maxRetries.toNat).emit
        (.visitStarted b.config.maxRetries.toNat))
    rw [hres] at ha
    cases c with
    | normal u => simp [succeeds, hres] at hf
    | throw m =>
      have hnot : ¬ ((b.config.maxRetries.toNat : Nat) : Int)
          < (stateBefore env b b.config.maxRetries.toNat).config.maxRetries := by
        rw [h2]; omega
      rw [h1, generateVisit_throw env _ _ b1 m hres, if_neg hnot]
      constructor
      · rw [recordFailure, attempts_emit]
        show attempts b1 + _ = _
        rw [ha.1, attempts_emit, h3]
        simp [isAttempt, Nat.add_assoc]
      · rw [recordFailure, attemptIndices_emit]
        show attemptIndices b1 ++ _ = _
        rw [ha.2, attemptIndices_emit, h4]
        simp [List.range_succ]
  · intro k hk hbefore hsucc
    obtain ⟨h1, h2, h3, h4⟩ := generateVisit_chain env b k (by omega) hbefore
    rcases hres : tryVisit (env k) ((stateBefore env b k).emit (.visitStarted k)) with ⟨c, b1⟩
    have ha := tryVisit_attempts (env k) ((stateBefore env b k).emit (.visitStarted k))
    rw [hres] at ha
    cases c with
    | throw m => simp [succeeds, hres] at hsucc
    | normal u =>
      rw [h1, generateVisit_normal env k _ b1 u hres]
      refine ⟨?_, ?_, rfl⟩
      · show attempts b1 = _
        rw [ha.1, attempts_emit, h3]
        simp [isAttempt, Nat.add_assoc]
      · show attemptIndices b1 = _
        rw [ha.2, attemptIndices_emit, h4]
        simp [List.range_succ]

/-- Witness of C2: scenario A, two failures and then a success. -/
theorem C2_attempts_bounded_witness :
    0 ≤ scenarioA.config.maxRetries ∧
    (attempts (generateVisit failTwiceThenOk 0 scenarioA)
      ≤ attempts scenarioA + (scenarioA.config.maxRetries.toNat + 1) ∧
    ((∀ k, k ≤ scenarioA.config.maxRetries.toNat → succeeds failTwiceThenOk scenarioA k = false) →
      attempts (generateVisit failTwiceThenOk 0 scenarioA)
        = attempts scenarioA + (scenarioA.config.maxRetries.toNat + 1) ∧
      attemptIndices (generateVisit failTwiceThenOk 0 scenarioA)
        = attemptIndices scenarioA ++ List.range (scenarioA.config.maxRetries.toNat + 1)) ∧
    (∀ k, k ≤ scenarioA.config.maxRetries.toNat →
      (∀ i, i < k → succeeds failTwiceThenOk scenarioA i = false) →
      succeeds failTwiceThenOk scenarioA k = true →
      attempts (generateVisit failTwiceThenOk 0 scenarioA) = attempts scenarioA + (k + 1) ∧
      attemptIndices (generateVisit failTwiceThenOk 0 scenarioA)
        = attemptIndices scenarioA ++ List.range (k + 1) ∧
      generateVisit failTwiceThenOk 0 scenarioA
        = (tryVisit (failTwiceThenOk k)
            ((stateBefore failTwiceThenOk scenarioA k).emit (.visitStarted k))).2)) :=
  ⟨by decide, C2_attempts_bounded failTwiceThenOk scenarioA (by decide)⟩

/-- C3: `getRandomProxy` throws exactly when the proxy list is empty, with the
message 'No proxies available'; for a non-empty list and a draw `r`, a double
in `[0, 1)`, it returns the entry at index `floor (r * length)`, the product
being the double product of the source; that index is within the bounds, so
the entry is in the list; and the call leaves the bot unchanged. -/
theorem C3_getRandomProxy (b : TrafficBot) (r : ℚ) (hd : isDouble r) (h0 : 0 ≤ r)
    (h1 : r < 1) :
    ((∃ m, (getRandomProxy r b).1 = .throw m) ↔ b.proxyList = []) ∧
    (b.proxyList = [] → (getRandomProxy r b).1 = .throw "No proxies available") ∧
    (b.proxyList ≠ [] → ∃ p, (getRandomProxy r b).1 = .normal (some p) ∧ p ∈ b.proxyList ∧
      0 ≤ ⌊roundDouble (r * b.proxyList.length)⌋ ∧
      ⌊roundDouble (r * b.proxyList.length)⌋ < b.proxyList.length ∧
      b.proxyList[⌊roundDouble (r * b.proxyList.length)⌋.toNat]? = some p) ∧
    (getRandomProxy r b).2 = b := by
  have hnonempty : b.proxyList ≠ [] → ∃ p, (getRandomProxy r b).1 = .normal (some p) ∧
      p ∈ b.proxyList ∧
      0 ≤ ⌊roundDouble (r * b.proxyList.length)⌋ ∧
      ⌊roundDouble (r * b.proxyList.length)⌋ < b.proxyList.length ∧
      b.proxyList[⌊roundDouble (r * b.proxyList.length)⌋.toNat]? = some p := by
    intro hne
    have hlen : 0 < b.proxyList.length := List.length_pos.mpr hne
    obtain ⟨hnn, hlt⟩ := roundDouble_mul_lt r b.proxyList.length hd h0 h1 hlen
    have hlo : 0 ≤ ⌊roundDouble (r * b.proxyList.length)⌋ := Int.floor_nonneg.mpr hnn
    have hhi : ⌊roundDouble (r * b.proxyList.length)⌋ < b.proxyList.length := by
      rw [Int.floor_lt]
      push_cast
      exact hlt
    have hidx : ⌊roundDouble (r * b.proxyList.length)⌋.toNat < b.proxyList.length := by omega
    refine ⟨b.proxyList[⌊roundDouble (r * b.proxyList.length)⌋.toNat], ?_,
      List.getElem_mem _, hlo, hhi, ?_⟩
    · have hl : ¬ b.proxyList.length = 0 := by omega
      simp only [getRandomProxy, if_neg hl, index, mathFloor, if_neg (not_lt.mpr hlo)]
      rw [List.getElem?_eq_getElem hidx]
    · exact List.getElem?_eq_getElem hidx
  refine ⟨?_, ?_, hnonempty, ?_⟩
  · constructor
    · rintro ⟨m, hm⟩
      by_contra hne
      obtain ⟨p, hp, _⟩ := hnonempty hne
      rw [hp] at hm
      cases hm
    · intro he
      exact ⟨"No proxies available", by simp [getRandomProxy, he]⟩
  · intro he
    simp [getRandomProxy, he]
  · unfold getRandomProxy
    split_ifs <;> rfl

/-- Witness of C3: seven proxies and the draw `2573485501354569 / 2 ^ 52`. -/
theorem C3_getRandomProxy_witness :
    isDouble drawNearFourSevenths ∧ 0 ≤ drawNearFourSevenths ∧ drawNearFourSevenths < 1 ∧
    (((∃ m, (getRandomProxy drawNearFourSevenths sevenProxies).1 = .throw m)
      ↔ sevenProxies.proxyList = []) ∧
    (sevenProxies.proxyList = [] →
      (getRandomProxy drawNearFourSevenths sevenProxies).1 = .throw "No proxies available") ∧
    (sevenProxies.proxyList ≠ [] →
      ∃ p, (getRandomProxy drawNearFourSevenths sevenProxies).1 = .normal (some p) ∧
      p ∈ sevenProxies.proxyList ∧
      0 ≤ ⌊roundDouble (drawNearFourSevenths * sevenProxies.proxyList.length)⌋ ∧
      ⌊roundDouble (drawNearFourSevenths * sevenProxies.proxyList.length)⌋
        < sevenProxies.proxyList.length ∧
      sevenProxies.proxyList[
        ⌊roundDouble (drawNearFourSevenths * sevenProxies.proxyList.length)⌋.toNat]? = some p) ∧
    (getRandomProxy drawNearFourSevenths sevenProxies).2 = sevenProxies) :=
  ⟨drawNearFourSevenths_isDouble, by norm_num [drawNearFourSevenths],
   by norm_num [drawNearFourSevenths],
   C3_getRandomProxy sevenProxies drawNearFourSevenths drawNearFourSevenths_isDouble
    (by norm_num [drawNearFourSevenths]) (by norm_num [drawNearFourSevenths])⟩

/-- C4: when the fetch or the reading of the body fails, `refreshProxies` leaves
the proxy list as it was; it completes normally if that list is non-empty, and
throws, with 'No proxies available', exactly when the list is empty. -/
theorem C4_refresh_failure_keeps_list (reply : ProviderReply) (b : TrafficBot)
    (hfail : ∀ text, reply ≠ .body text) :
    (refreshProxies reply b).2.proxyList = b.proxyList ∧
    (b.proxyList ≠ [] → (refreshProxies reply b).1 = .normal ()) ∧
    ((refreshProxies reply b).1 = .throw "No proxies available" ↔ b.proxyList = []) ∧
    (∀ m, (refreshProxies reply b).1 = .throw m → m = "No proxies available") := by
  cases reply with
  | body text => exact absurd rfl (hfail text)
  | fetchError msg =>
    by_cases he : b.proxyList = [] <;> simp [refreshProxies, emit, he]
  | textError msg =>
    by_cases he : b.proxyList = [] <;> simp [refreshProxies, emit, he]

/-- Witness of C4: the fetch rejects while three proxies are held. -/
theorem C4_refresh_failure_keeps_list_witness :
    (∀ text, ProviderReply.fetchError "ETIMEDOUT" ≠ .body text) ∧
    ((refreshProxies (.fetchError "ETIMEDOUT") scenarioA).2.proxyList = scenarioA.proxyList ∧
    (scenarioA.proxyList ≠ [] →
      (refreshProxies (.fetchError "ETIMEDOUT") scenarioA).1 = .normal ()) ∧
    ((refreshProxies (.fetchError "ETIMEDOUT") scenarioA).1 = .throw "No proxies available"
      ↔ scenarioA.proxyList = []) ∧
    (∀ m, (refreshProxies (.fetchError "ETIMEDOUT") scenarioA).1 = .throw m →
      m = "No proxies available")) :=
  ⟨(by intro text h; cases h),
   C4_refresh_failure_keeps_list (.fetchError "ETIMEDOUT") scenarioA (by intro text h; cases h)⟩

/-- C5: when the fetch succeeds with body `B`, `refreshProxies` completes
normally and replaces the proxy list, whatever it held, by the lines of `B`
(split on the newline) that are not empty or white space only, each trimmed,
in order. Every new entry is non-empty, begins and ends with a character that
is not white space, and occurs in `B`; so an old entry survives only if it
occurs in `B`. -/
theorem C5_refresh_replaces_list (b : TrafficBot) (body : String) :
    (refreshProxies (.body body) b).1 = .normal () ∧
    (refreshProxies (.body body) b).2.proxyList = parseProxiesSpec body ∧
    joinChars (splitChars body.data) = body.data ∧
    (∀ piece ∈ splitChars body.data, '\n' ∉ piece) ∧
    (∀ entry ∈ (refreshProxies (.body body) b).2.proxyList,
      entry ≠ "" ∧
      (∀ c, entry.data.head? = some c → isWhiteSpace c = false) ∧
      (∀ c, entry.data.getLast? = some c → isWhiteSpace c = false) ∧
      (∃ pre post, body.data = pre ++ entry.data ++ post)) ∧
    (∀ old ∈ b.proxyList, old ∈ (refreshProxies (.body body) b).2.proxyList →
      ∃ pre post, body.data = pre ++ old.data ++ post) := by
  have hlist : (refreshProxies (.body body) b).2.proxyList = parseProxies body := rfl
  have hentry : ∀ entry ∈ (refreshProxies (.body body) b).2.proxyList,
      entry ≠ "" ∧
      (∀ c, entry.data.head? = some c → isWhiteSpace c = false) ∧
      (∀ c, entry.data.getLast? = some c → isWhiteSpace c = false) ∧
      (∃ pre post, body.data = pre ++ entry.data ++ post) := by
    intro entry he
    rw [hlist] at he
    obtain ⟨line, hline, hne, hdata⟩ := mem_parseProxies body entry he
    refine ⟨?_, ?_, ?_, ?_⟩
    · rw [string_ne_empty_iff, hdata]
      exact hne
    · intro c hc
      rw [hdata] at hc
      exact trimChars_head line c hc
    · intro c hc
      rw [hdata] at hc
      exact trimChars_last line c hc
    · obtain ⟨pre, post, hocc⟩ := splitChars_occurs body.data line hline
      obtain ⟨pre2, post2, hdec, _, _⟩ := trimChars_decompose line
      refine ⟨pre ++ pre2, post2 ++ post, ?_⟩
      rw [hdata, hocc]
      nth_rewrite 1 [hdec]
      simp [List.append_assoc]
  refine ⟨rfl, ?_, joinChars_splitChars _, splitChars_no_newline _, hentry, ?_⟩
  · rw [hlist, parseProxies_eq_spec]
  · intro old _ hnew
    exact (hentry old hnew).2.2.2

/-- C6, the code at the failing input: for a freshly constructed bot `getStats()`
reports the success rate "NaN%". -/
theorem C6_fresh_successRate_is_NaN (numberToString : ℚ → String) :
    fresh.visitCount = 0 ∧ (getStats numberToString fresh).successRate = "NaN%" := by
  have hbig : ¬ ((2 : ℚ) ^ 1024 ≤ 0) := by
    have : (0 : ℚ) < (2 : ℚ) ^ 1024 := by positivity
    exact not_le.mpr this
  have h0 : JSNumber.ofRat 0 = .finite 0 := by
    simp [JSNumber.ofRat, roundDouble, hbig]
  constructor
  · rfl
  · simp [getStats, fresh, constructor, JSNumber.sub, JSNumber.div, JSNumber.mul,
      JSNumber.toFixed2, h0]

/-- C7, as the code has it: with `useProxy` true and an empty proxy list, when
the fetch of the initial refresh (or the reading of its body) fails, `start()`
throws 'No proxies available' and arms no timer. -/
theorem C7_start_fails_on_fetch_failure (reply : ProviderReply) (b : TrafficBot)
    (huse : b.config.useProxy = true) (hempty : b.proxyList = [])
    (hfail : ∀ text, reply ≠ .body text) :
    (start reply b).1 = .throw "No proxies available" ∧
      (start reply b).2.timers = b.timers ∧
      (start reply b).2.proxyList = [] := by
  cases reply with
  | body text => exact absurd rfl (hfail text)
  | fetchError msg => simp [start, init, refreshProxies, emit, huse, hempty]
  | textError msg => simp [start, init, refreshProxies, emit, huse, hempty]

/-- Witness of C7 as amended: a fresh bot whose first fetch rejects. -/
theorem C7_start_fails_on_fetch_failure_witness :
    fresh.config.useProxy = true ∧ fresh.proxyList = [] ∧
    (∀ text, ProviderReply.fetchError "ENOTFOUND" ≠ .body text) ∧
    ((start (.fetchError "ENOTFOUND") fresh).1 = .throw "No proxies available" ∧
      (start (.fetchError "ENOTFOUND") fresh).2.timers = fresh.timers ∧
      (start (.fetchError "ENOTFOUND") fresh).2.proxyList = []) :=
  ⟨rfl, rfl, (by intro text h; cases h),
   C7_start_fails_on_fetch_failure (.fetchError "ENOTFOUND") fresh rfl rfl
    (by intro text h; cases h)⟩

/-- C7, counterexample: the provider answers successfully with an empty body.
The initial refresh leaves the proxy list empty, yet `start()` completes
normally and arms the refresh timer and five visit timers. -/
theorem C7_counterexample :
    fresh.config.useProxy = true ∧
      (refreshProxies (.body "") fresh).2.proxyList = [] ∧
      (start (.body "") fresh).2.proxyList = [] ∧
      (start (.body "") fresh).1 = .normal () ∧
      (start (.body "") fresh).2.timers =
        { callback := .refresh, period := 3600000 } ::
          List.replicate 5 { callback := .visit, period := 1000 } := by
  refine ⟨rfl, ?_, ?_, ?_, ?_⟩ <;>
    simp [start, init, refreshProxies, emit, setInterval, startLoop_eq, fresh, constructor,
      emptyInput, jsOr, Truthy.truthy, parseProxies, splitNewline, splitChars, trim, trimChars]

/-- C8, as the code has it: a successful `start()` from a state without timers
arms the refresh timer when `useProxy`, then exactly `concurrency` visit
timers; `cleanup()` cancels none of them (it changes no field of the bot), and
afterwards each of them still fires: a visit timer runs `generateVisit()`, which starts a new attempt, and
the refresh timer runs `refreshProxies()`, which issues a provider request. -/
theorem C8_start_arms_cleanup_keeps (reply : ProviderReply) (b : TrafficBot)
    (hstart : (start reply b).1 = .normal ()) (hnone : b.timers = []) :
    (start reply b).2.timers =
      (if b.config.useProxy then
        [{ callback := .refresh, period := b.config.proxyRefreshInterval }] else []) ++
      List.replicate b.config.concurrency.toNat
        { callback := .visit, period := b.config.interval } ∧
    (∀ closeError, (cleanup closeError (start reply b).2).2.timers = (start reply b).2.timers) ∧
    (∀ closeError, (cleanup closeError (start reply b).2).2
      = { (start reply b).2 with trace := (cleanup closeError (start reply b).2).2.trace }) ∧
    (∀ closeError t env reply2, t ∈ (start reply b).2.timers →
      ∃ b3, fire t env reply2 (cleanup closeError (start reply b).2).2 = some b3 ∧
        (t.callback = .visit →
          b3 = generateVisit env 0 (cleanup closeError (start reply b).2).2 ∧
          attempts (cleanup closeError (start reply b).2).2 < attempts b3) ∧
        (t.callback = .refresh →
          b3 = (refreshProxies reply2 (cleanup closeError (start reply b).2).2).2 ∧
          refreshCalls b3
            = refreshCalls (cleanup closeError (start reply b).2).2 + 1)) := by
  have htimers : (start reply b).2.timers =
      (if b.config.useProxy then
        [{ callback := .refresh, period := b.config.proxyRefreshInterval }] else []) ++
      List.replicate b.config.concurrency.toNat
        { callback := .visit, period := b.config.interval } := by
    by_cases huse : b.config.useProxy = true
    · rcases reply with msg | msg | text
      · by_cases he : b.proxyList = [] <;>
          simp_all [start, init, refreshProxies, emit, setInterval, startLoop_eq]
      · by_cases he : b.proxyList = [] <;>
          simp_all [start, init, refreshProxies, emit, setInterval, startLoop_eq]
      · simp [start, init, refreshProxies, emit, setInterval, startLoop_eq, huse, hnone]
    · simp [start, init, emit, startLoop_eq, huse, hnone]
  refine ⟨htimers, fun ce => cleanup_timers ce _, fun ce => cleanup_only_trace ce _, ?_⟩
  intro ce t env reply2 ht
  have hmem : t ∈ (cleanup ce (start reply b).2).2.timers := by
    rw [cleanup_timers]; exact ht
  unfold fire
  rw [if_pos hmem]
  rcases hcb : t.callback with _ | _
  · refine ⟨_, rfl, ?_, ?_⟩
    · intro h; cases h
    · intro _
      exact ⟨rfl, refreshProxies_refreshCalls _ _⟩
  · refine ⟨_, rfl, ?_, ?_⟩
    · intro _
      exact ⟨rfl, generateVisit_attempts_ge _ _ _⟩
    · intro h; cases h

/-- Witness of C8 as amended: a fresh bot whose provider lists one proxy. -/
theorem C8_start_arms_cleanup_keeps_witness :
    (start (.body "10.0.0.1:8080") fresh).1 = .normal () ∧ fresh.timers = [] ∧
    ((start (.body "10.0.0.1:8080") fresh).2.timers =
      (if fresh.config.useProxy then
        [{ callback := .refresh, period := fresh.config.proxyRefreshInterval }] else []) ++
      List.replicate fresh.config.concurrency.toNat
        { callback := .visit, period := fresh.config.interval } ∧
    (∀ closeError, (cleanup closeError (start (.body "10.0.0.1:8080") fresh).2).2.timers
      = (start (.body "10.0.0.1:8080") fresh).2.timers) ∧
    (∀ closeError, (cleanup closeError (start (.body "10.0.0.1:8080") fresh).2).2
      = { (start (.body "10.0.0.1:8080") fresh).2 with
          trace := (cleanup closeError (start (.body "10.0.0.1:8080") fresh).2).2.trace }) ∧
    (∀ closeError t env reply2, t ∈ (start (.body "10.0.0.1:8080") fresh).2.timers →
      ∃ b3, fire t env reply2
          (cleanup closeError (start (.body "10.0.0.1:8080") fresh).2).2 = some b3 ∧
        (t.callback = .visit →
          b3 = generateVisit env 0
            (cleanup closeError (start (.body "10.0.0.1:8080") fresh).2).2 ∧
          attempts (cleanup closeError (start (.body "10.0.0.1:8080") fresh).2).2
            < attempts b3) ∧
        (t.callback = .refresh →
          b3 = (refreshProxies reply2
            (cleanup closeError (start (.body "10.0.0.1:8080") fresh).2).2).2 ∧
          refreshCalls b3
            = refreshCalls
                (cleanup closeError (start (.body "10.0.0.1:8080") fresh).2).2 + 1))) :=
  ⟨(by simp [start, init, refreshProxies, fresh, constructor, emptyInput, jsOr, Truthy.truthy]),
   rfl,
   C8_start_arms_cleanup_keeps (.body "10.0.0.1:8080") fresh
    (by simp [start, init, refreshProxies, fresh, constructor, emptyInput, jsOr, Truthy.truthy])
    rfl⟩

/-- C8, counterexample: after `start()` and then `cleanup()` on a fresh bot the
five visit timers and the refresh timer are still armed, and a visit timer that
fires starts a new attempt of `generateVisit`. -/
theorem C8_counterexample :
    (start (.body "10.0.0.1:8080") fresh).1 = .normal () ∧
    (cleanup none (start (.body "10.0.0.1:8080") fresh).2).1 = .normal () ∧
    (cleanup none (start (.body "10.0.0.1:8080") fresh).2).2.timers =
      { callback := .refresh, period := 3600000 } ::
        List.replicate 5 { callback := .visit, period := 1000 } ∧
    (∃ b3, fire { callback := .visit, period := 1000 } (alwaysStatus 200) (.body "")
        (cleanup none (start (.body "10.0.0.1:8080") fresh).2).2 = some b3 ∧
      attempts (cleanup none (start (.body "10.0.0.1:8080") fresh).2).2 < attempts b3) := by
  have hs : (start (.body "10.0.0.1:8080") fresh).1 = .normal () := by
    simp [start, init, refreshProxies, fresh, constructor, emptyInput, jsOr, Truthy.truthy]
  have ht : (cleanup none (start (.body "10.0.0.1:8080") fresh).2).2.timers =
      { callback := .refresh, period := 3600000 } ::
        List.replicate 5 { callback := .visit, period := 1000 } := by
    rw [cleanup_timers]
    simp [start, init, refreshProxies, emit, setInterval, startLoop_eq, fresh, constructor,
      emptyInput, jsOr, Truthy.truthy]
  refine ⟨hs, ?_, ht, ?_⟩
  · simp [cleanup, start, init, refreshProxies, emit, setInterval, startLoop_eq, fresh,
      constructor, emptyInput, jsOr, Truthy.truthy, truthyField]
  · refine ⟨generateVisit (alwaysStatus 200) 0
      (cleanup none (start (.body "10.0.0.1:8080") fresh).2).2, ?_, ?_⟩
    · unfold fire
      rw [if_pos (by rw [ht]; simp [List.replicate])]
    · exact generateVisit_attempts_ge _ _ _

/-- C9, as the code has it: when the proxy list is empty, an attempt throws at
the pick, so no tunnel is opened and no HTTP request is issued, but the failure
is counted and retried like any other: the call with retry count `rc` performs
`max (maxRetries - rc) 0 + 1` attempts. -/
theorem C9_empty_list_still_retries (env : Nat → Attempt) (rc : Nat) (b : TrafficBot)
    (hempty : b.proxyList = []) :
    attempts (generateVisit env rc b)
        = attempts b + ((b.config.maxRetries - rc).toNat + 1) ∧
      networkCalls (generateVisit env rc b) = networkCalls b ∧
      (generateVisit env rc b).failedVisits
        = b.failedVisits + ((b.config.maxRetries - rc).toNat + 1) ∧
      (generateVisit env rc b).visitCount = b.visitCount :=
  generateVisit_empty env rc b hempty

/-- Witness of C9 as amended: a fresh bot, whose proxy list is empty. -/
theorem C9_empty_list_still_retries_witness :
    fresh.proxyList = [] ∧
      attempts (generateVisit (alwaysStatus 200) 0 fresh)
        = attempts fresh + ((fresh.config.maxRetries - (0 : Nat)).toNat + 1) ∧
      networkCalls (generateVisit (alwaysStatus 200) 0 fresh) = networkCalls fresh ∧
      (generateVisit (alwaysStatus 200) 0 fresh).failedVisits
        = fresh.failedVisits + ((fresh.config.maxRetries - (0 : Nat)).toNat + 1) ∧
      (generateVisit (alwaysStatus 200) 0 fresh).visitCount = fresh.visitCount :=
  ⟨rfl, C9_empty_list_still_retries (alwaysStatus 200) 0 fresh rfl⟩

/-- C9, counterexample: a fresh bot (empty proxy list, `maxRetries` 3) performs
four attempts in one call `generateVisit()`, not one. -/
theorem C9_counterexample :
    fresh.proxyList = [] ∧ fresh.config.maxRetries = 3 ∧ attempts fresh = 0 ∧
      attempts (generateVisit (alwaysStatus 200) 0 fresh) = 4 ∧
      attempts (generateVisit (alwaysStatus 200) 0 fresh) ≠ attempts fresh + 1 := by
  have h := (generateVisit_empty (alwaysStatus 200) 0 fresh rfl).1
  have hR : fresh.config.maxRetries = 3 := by decide
  have h0 : attempts fresh = 0 := rfl
  rw [hR, h0] at h
  have h4 : attempts (generateVisit (alwaysStatus 200) 0 fresh) = 4 := by
    rw [h]; rfl
  refine ⟨rfl, hR, h0, h4, ?_⟩
  rw [h4, h0]
  decide

/-- C10, as the code has it: every stored setting is the supplied value when
that value is truthy and the built-in default otherwise; hence the stored
`useProxy` is always true, a supplied 0 for `maxRetries`, `concurrency`,
`interval` or `timeout` is stored as 3, 5, 1000 or 30000, and the stored
`maxRetries` is never 0. A negative `maxRetries` is truthy and stored as it is,
and `generateVisit()` then makes one attempt and no retry. -/
theorem C10_constructor_defaults (c : ConfigInput) :
    StoredOrDefault (fun s => s ≠ "") c.targetUrl "" (constructor c).config.targetUrl ∧
    StoredOrDefault (fun n => n ≠ 0) c.concurrency 5 (constructor c).config.concurrency ∧
    StoredOrDefault (fun n => n ≠ 0) c.interval 1000 (constructor c).config.interval ∧
    StoredOrDefault (fun _ => True) c.countries ["US", "UK", "CA"]
      (constructor c).config.countries ∧
    StoredOrDefault (fun v => v = true) c.useProxy true (constructor c).config.useProxy ∧
    StoredOrDefault (fun n => n ≠ 0) c.proxyRefreshInterval 3600000
      (constructor c).config.proxyRefreshInterval ∧
    StoredOrDefault (fun n => n ≠ 0) c.maxRetries 3 (constructor c).config.maxRetries ∧
    StoredOrDefault (fun n => n ≠ 0) c.timeout 30000 (constructor c).config.timeout ∧
    (constructor c).config.useProxy = true ∧
    (c.maxRetries = some 0 → (constructor c).config.maxRetries = 3) ∧
    (c.concurrency = some 0 → (constructor c).config.concurrency = 5) ∧
    (c.interval = some 0 → (constructor c).config.interval = 1000) ∧
    (c.timeout = some 0 → (constructor c).config.timeout = 30000) ∧
    (constructor c).config.maxRetries ≠ 0 ∧
    (∀ v, c.maxRetries = some v → v < 0 →
      (constructor c).config.maxRetries = v ∧
      ∀ env, attempts (generateVisit env 0 (constructor c)) = attempts (constructor c) + 1) := by
  have huse : (constructor c).config.useProxy = true := by
    show jsOr c.useProxy true = true
    rcases c.useProxy with _ | v
    · rfl
    · cases v <;> rfl
  refine ⟨jsOr_string _ _, jsOr_int _ _, jsOr_int _ _, jsOr_array _ _, ?_, jsOr_int _ _,
    jsOr_int _ _, jsOr_int _ _, huse, ?_, ?_, ?_, ?_, ?_, ?_⟩
  · constructor
    · intro v hv ht
      rw [huse, ht]
    · intro _
      exact huse
  · intro h
    show jsOr c.maxRetries 3 = 3
    rw [h]; rfl
  · intro h
    show jsOr c.concurrency 5 = 5
    rw [h]; rfl
  · intro h
    show jsOr c.interval 1000 = 1000
    rw [h]; rfl
  · intro h
    show jsOr c.timeout 30000 = 30000
    rw [h]; rfl
  · show jsOr c.maxRetries 3 ≠ 0
    rcases c.maxRetries with _ | v
    · decide
    · by_cases hv : v = 0
      · subst hv; decide
      · simp [jsOr, Truthy.truthy, hv]
  · intro v hv hneg
    have hstored : (constructor c).config.maxRetries = v :=
      (jsOr_int c.maxRetries 3).1 v hv (by omega)
    refine ⟨hstored, fun env => ?_⟩
    exact generateVisit_single_attempt env (constructor c) (by rw [hstored]; omega)

/-- C10, counterexample: a caller who supplies `maxRetries: -1` gets -1 stored
and with it zero retries: against a target that always answers 500 one call
`generateVisit()` makes a single attempt. -/
theorem C10_counterexample :
    negativeRetries.maxRetries = some (-1) ∧
      (constructor negativeRetries).config.maxRetries = -1 ∧
      attempts (constructor negativeRetries) = 0 ∧
      attempts (generateVisit (alwaysStatus 500) 0 (constructor negativeRetries)) = 1 ∧
      (generateVisit (alwaysStatus 500) 0 (constructor negativeRetries)).failedVisits = 1 := by
  have hR : (constructor negativeRetries).config.maxRetries = -1 := by decide
  have h1 := generateVisit_single_attempt (alwaysStatus 500) (constructor negativeRetries)
    (by rw [hR]; decide)
  have h2 := (generateVisit_all_fail (alwaysStatus 500)
    (by intro k r h; simp only [alwaysStatus, Except.ok.injEq] at h; subst h; decide)
    0 (constructor negativeRetries)).1
  rw [hR] at h2
  exact ⟨rfl, hR, rfl, h1, h2⟩

end TrafficBot
